import Mathlib

/-!
# Verification of the cold-chain telemetry processor

Shallow embedding of the core per-sensor logic of the cold-chain
telemetry processor (`index.js` and `src/services/*.js`), together with
proofs about the data model and the per-sensor state machine.

Modelling conventions:
* JavaScript numbers are modelled as `ℚ` (temperatures, humidities,
  statistical metrics) and `ℤ` (millisecond timestamps).
* The statistical metrics that the analyzer derives from the rolling
  window (`slope`, `r2`, `stdError`, `variance`, `acceleration`, `jerk`,
  `cicloDegelo`, `changePoint`, `segmentAnalysis`) involve square roots
  and are therefore treated as an unconstrained oracle record `IAStats`
  wherever the decision logic consumes them; all theorems about the
  decision logic are universally quantified over this record.  The
  `ready` flag and the rolling-window bookkeeping, which the claims
  depend on, are embedded exactly.  The change-point search
  (`detectarMudancaPonto`), which is square-root free, is embedded
  exactly as well.
* Per-sensor map entries (`alertControl`, `alertWatchlist`,
  `lastReadings`) are modelled as `Option`-valued per-sensor state.
  In the source a control object obtained from the map is mutated in
  place; a freshly defaulted object becomes visible in the map only
  when `alertControl.set` runs, which happens whenever the analyzer is
  ready or an alert is emitted.
* Logging-only bookkeeping (`last_porta_state_loaded_ts`,
  `last_porta_state_logged`) and display-only rounding (`toFixed`) are
  not modelled; no modelled observable depends on them.
-/

/-! ## Time-series window (`analisarTendencia`, sampling and pruning part) -/

/-- One rolling-window sample `{ts, temp}` as pushed by `analisarTendencia`. -/
structure Sample where
  ts : ℤ
  temp : ℚ
deriving DecidableEq, Repr

/-- `DATA_SAMPLE_INTERVAL_SEC * 1000`: minimum spacing between samples (ms). -/
def DATA_SAMPLE_INTERVAL_MS : ℤ := 10 * 1000

/-- `PREDICT_WINDOW_MINS * 60 * 1000`: length of the sliding window (ms). -/
def PREDICT_WINDOW_MS : ℤ := 20 * 60 * 1000

/-- The sampling step of `analisarTendencia` (`index.js` lines 481-504):
push `{ts := now, temp}` if the history is empty or the last sample is at
least 10 s old, then drop every sample with `ts ≤ now − 20 min`;
otherwise leave the history unchanged. -/
def windowAppend (now : ℤ) (temp : ℚ) (history : List Sample) : List Sample :=
  match history.getLast? with
  | none =>
      (history ++ [Sample.mk now temp]).filter (fun h => now - PREDICT_WINDOW_MS < h.ts)
  | some lastS =>
      if DATA_SAMPLE_INTERVAL_MS ≤ now - lastS.ts then
        (history ++ [Sample.mk now temp]).filter (fun h => now - PREDICT_WINDOW_MS < h.ts)
      else history

/-- Fold a sequence of `(now, temp)` inputs through the sampling step,
starting from the empty history. -/
def windowRun (inputs : List (ℤ × ℚ)) : List Sample :=
  inputs.foldl (fun h i => windowAppend i.1 i.2 h) []

/-- Samples spaced by at least the 10 s sampling interval, in list order. -/
def gapR (a b : Sample) : Prop := a.ts + DATA_SAMPLE_INTERVAL_MS ≤ b.ts

/-- Invariant of the rolling window: consecutive samples are ≥ 10 s apart
(in increasing time order), and any two samples are less than 20 min
apart. -/
def windowInv (l : List Sample) : Prop :=
  l.Pairwise gapR ∧ ∀ a ∈ l, ∀ b ∈ l, b.ts - a.ts < PREDICT_WINDOW_MS

theorem windowInv_nil : windowInv [] := by
  constructor
  · exact List.Pairwise.nil
  · intro a ha
    simp at ha

theorem pairwise_gapR_le_getLast (l : List Sample) (x : Sample)
    (hp : l.Pairwise gapR) (hx : l.getLast? = some x) :
    ∀ a ∈ l, a.ts ≤ x.ts := by
  induction l with
  | nil => simp at hx
  | cons h t ih =>
    cases t with
    | nil =>
      have hhx : h = x := by simpa using hx
      subst hhx
      intro a ha
      have : a = h := by simpa using ha
      subst this
      exact le_refl _
    | cons h2 t2 =>
      have hx' : (h2 :: t2).getLast? = some x := by
        simpa [List.getLast?_cons_cons] using hx
      have hp' : (h2 :: t2).Pairwise gapR := (List.pairwise_cons.mp hp).2
      have hrel : ∀ b ∈ h2 :: t2, gapR h b := (List.pairwise_cons.mp hp).1
      intro a ha
      rcases List.mem_cons.mp ha with rfl | ha'
      · have hxm : x ∈ h2 :: t2 := List.mem_of_getLast?_eq_some hx'
        have := hrel x hxm
        unfold gapR DATA_SAMPLE_INTERVAL_MS at this
        omega
      · exact ih hp' hx' a ha'

theorem windowAppend_inv (now : ℤ) (temp : ℚ) (l : List Sample)
    (h : windowInv l) : windowInv (windowAppend now temp l) := by
  obtain ⟨hpair, hdiff⟩ := h
  unfold windowAppend
  have key : ∀ bound : ℤ, (∀ a ∈ l, a.ts ≤ bound) → bound + DATA_SAMPLE_INTERVAL_MS ≤ now →
      windowInv ((l ++ [Sample.mk now temp]).filter
        (fun h => now - PREDICT_WINDOW_MS < h.ts)) := by
    intro bound hbound hgap
    unfold DATA_SAMPLE_INTERVAL_MS at hgap
    constructor
    · apply List.Pairwise.filter
      rw [List.pairwise_append]
      refine ⟨hpair, List.pairwise_singleton _ _, ?_⟩
      intro a ha b hb
      simp at hb
      subst hb
      have := hbound a ha
      unfold gapR DATA_SAMPLE_INTERVAL_MS
      simp only
      omega
    · intro a ha b hb
      have ha' := List.of_mem_filter ha
      have hb' := List.mem_of_mem_filter hb
      have haI : now - PREDICT_WINDOW_MS < a.ts := by
        simpa using ha'
      have hbI : b.ts ≤ now := by
        rcases List.mem_append.mp hb' with hbl | hbr
        · have := hbound b hbl
          omega
        · have : b = Sample.mk now temp := by simpa using hbr
          subst this
          exact le_refl _
      unfold PREDICT_WINDOW_MS at haI ⊢
      omega
  match hL : l.getLast? with
  | none =>
    have hnil : l = [] := List.getLast?_eq_none_iff.mp hL
    subst hnil
    constructor
    · apply List.Pairwise.filter
      simp
    · intro a ha b hb
      have haI : now - PREDICT_WINDOW_MS < a.ts := by
        simpa using List.of_mem_filter ha
      have hb' := List.mem_of_mem_filter hb
      have hbI : b = Sample.mk now temp := by simpa using hb'
      subst hbI
      unfold PREDICT_WINDOW_MS at haI ⊢
      simp only
      omega
  | some lastS =>
    by_cases hc : DATA_SAMPLE_INTERVAL_MS ≤ now - lastS.ts
    · simp only [hc, if_true]
      exact key lastS.ts (pairwise_gapR_le_getLast l lastS hpair hL)
        (by unfold DATA_SAMPLE_INTERVAL_MS at hc ⊢; omega)
    · simp only [hc, if_false]
      exact ⟨hpair, hdiff⟩

theorem windowRun_inv (inputs : List (ℤ × ℚ)) : windowInv (windowRun inputs) := by
  unfold windowRun
  have : ∀ (ins : List (ℤ × ℚ)) (l : List Sample), windowInv l →
      windowInv (ins.foldl (fun h i => windowAppend i.1 i.2 h) l) := by
    intro ins
    induction ins with
    | nil => intro l hl; exact hl
    | cons i rest ih =>
      intro l hl
      exact ih _ (windowAppend_inv i.1 i.2 l hl)
  exact this inputs [] windowInv_nil

/-- C5: after any sequence of appends the rolling window never contains
two distinct samples whose timestamps are closer than 10 s, and never
contains a sample more than 20 minutes older than any other sample (in
particular, than its newest sample).  A sample is appended only when at
least 10 s elapsed since the previous one, and the window is pruned to
20 minutes on every append. -/
theorem rolling_window_spacing_and_span (inputs : List (ℤ × ℚ)) :
    (∀ a ∈ windowRun inputs, ∀ b ∈ windowRun inputs, a ≠ b →
        DATA_SAMPLE_INTERVAL_MS ≤ |a.ts - b.ts|) ∧
    (∀ a ∈ windowRun inputs, ∀ b ∈ windowRun inputs,
        b.ts - a.ts < PREDICT_WINDOW_MS) := by
  obtain ⟨hpair, hdiff⟩ := windowRun_inv inputs
  constructor
  · have hsym' : (windowRun inputs).Pairwise
        (fun a b => DATA_SAMPLE_INTERVAL_MS ≤ |a.ts - b.ts|) := by
      refine hpair.imp ?_
      intro a b hab
      unfold gapR DATA_SAMPLE_INTERVAL_MS at hab
      unfold DATA_SAMPLE_INTERVAL_MS
      rw [abs_sub_comm, abs_of_nonneg (by omega)]
      omega
    intro a ha b hb hne
    exact hsym'.forall (fun x y hxy => by rwa [abs_sub_comm] at hxy) ha hb hne
  · exact hdiff

/-- Witness for C5 at a concrete two-sample run. -/
theorem rolling_window_spacing_and_span_witness :
    DATA_SAMPLE_INTERVAL_MS ≤ |(Sample.mk 0 (-18)).ts - (Sample.mk 10000 (-17)).ts| ∧
    (Sample.mk 10000 (-17)).ts - (Sample.mk 0 (-18)).ts < PREDICT_WINDOW_MS := by
  have h := rolling_window_spacing_and_span [(0, -18), (10000, -17)]
  have hrun : windowRun [(0, -18), (10000, -17)] =
      [Sample.mk 0 (-18), Sample.mk 10000 (-17)] := by decide
  have hm1 : Sample.mk 0 (-18) ∈ windowRun [(0, -18), (10000, -17)] := by
    rw [hrun]; exact List.mem_cons_self _ _
  have hm2 : Sample.mk 10000 (-17) ∈ windowRun [(0, -18), (10000, -17)] := by
    rw [hrun]; simp
  constructor
  · exact h.1 _ hm1 _ hm2 (by decide)
  · exact h.2 _ hm1 _ hm2

/-! ## Change-point detection (`detectarMudancaPonto`) -/

/-- `ss.mean`: arithmetic mean (0 on the empty list, which the source
never hits). -/
def listMean (l : List ℚ) : ℚ := l.sum / l.length

/-- `ss.variance`: population variance, `Σ (x − mean)² / n`. -/
def ssVariance (l : List ℚ) : ℚ :=
  ((l.map (fun x => (x - listMean l) ^ 2)).sum) / l.length

/-- The objective of the change-point loop at split index `i`:
`ss.variance(part1) + ss.variance(part2)` with
`part1 = history.slice(0, i)` and `part2 = history.slice(i)`. -/
def splitVariance (temps : List ℚ) (i : ℕ) : ℚ :=
  ssVariance (temps.take i) + ssVariance (temps.drop i)

/-- The accumulator loop of `detectarMudancaPonto`: starting from
`minVariance = Infinity, bestSplit = null` (modelled as `none`), keep the
split with the strictly smaller variance sum (ties keep the earlier
index, as in `totalVar < minVariance`). -/
def bestSplitAux (temps : List ℚ) : List ℕ → Option (ℚ × ℕ) → Option (ℚ × ℕ)
  | [], acc => acc
  | i :: rest, acc =>
      let v := splitVariance temps i
      match acc with
      | none => bestSplitAux temps rest (some (v, i))
      | some (mv, b) =>
          if v < mv then bestSplitAux temps rest (some (v, i))
          else bestSplitAux temps rest (some (mv, b))

/-- `detectarMudancaPonto` (`index.js` lines 400-422): `null` for fewer
than 6 samples, otherwise the loop `for (i = 3; i < len - 3; i++)`,
i.e. candidate indices `[3, …, len − 4]`.  For `len = 6` the loop body
never runs and `null` is returned. -/
def detectarMudancaPonto (history : List Sample) : Option ℕ :=
  if history.length < 6 then none
  else
    (bestSplitAux (history.map Sample.temp)
      (List.range' 3 (history.length - 6)) none).map Prod.snd

theorem mem_range'_one {m s n : ℕ} : m ∈ List.range' s n ↔ s ≤ m ∧ m < s + n := by
  rw [List.mem_range']
  constructor
  · rintro ⟨i, hi, rfl⟩
    omega
  · rintro ⟨h1, h2⟩
    exact ⟨m - s, by omega, by omega⟩

theorem bestSplitAux_spec (temps : List ℚ) (c : List ℕ) :
    ∀ (v0 : ℚ) (i0 : ℕ), v0 = splitVariance temps i0 →
    ∃ v i, bestSplitAux temps c (some (v0, i0)) = some (v, i) ∧
      v = splitVariance temps i ∧ (i = i0 ∨ i ∈ c) ∧ v ≤ v0 ∧
      ∀ j ∈ c, v ≤ splitVariance temps j := by
  induction c with
  | nil =>
    intro v0 i0 h
    exact ⟨v0, i0, rfl, h, Or.inl rfl, le_refl _, by simp⟩
  | cons x rest ih =>
    intro v0 i0 h
    by_cases hx : splitVariance temps x < v0
    · obtain ⟨v, i, heq, hvi, hmem, hle, hmin⟩ := ih (splitVariance temps x) x rfl
      refine ⟨v, i, ?_, hvi, ?_, ?_, ?_⟩
      · simp only [bestSplitAux, if_pos hx]
        exact heq
      · rcases hmem with rfl | hmem
        · exact Or.inr (List.mem_cons_self _ _)
        · exact Or.inr (List.mem_cons_of_mem _ hmem)
      · exact lt_of_le_of_lt hle hx |>.le
      · intro j hj
        rcases List.mem_cons.mp hj with rfl | hj'
        · exact hle
        · exact hmin j hj'
    · obtain ⟨v, i, heq, hvi, hmem, hle, hmin⟩ := ih v0 i0 h
      refine ⟨v, i, ?_, hvi, ?_, hle, ?_⟩
      · simp only [bestSplitAux, if_neg hx]
        exact heq
      · rcases hmem with rfl | hmem
        · exact Or.inl rfl
        · exact Or.inr (List.mem_cons_of_mem _ hmem)
      · intro j hj
        rcases List.mem_cons.mp hj with rfl | hj'
        · calc v ≤ v0 := hle
            _ ≤ splitVariance temps j := not_lt.mp hx
        · exact hmin j hj'

/-- C9 (amended): for a history of length ≥ 7 the change point is an
index `i ∈ [3, len − 4]` (the loop runs `i < len − 3`) minimising
`variance(left) + variance(right)` over that half-open range; for
length ≤ 6 — including exactly 6 samples, where the loop range is
empty — no change point is returned. -/
theorem changePoint_range_and_minimality (history : List Sample) :
    (history.length ≤ 6 → detectarMudancaPonto history = none) ∧
    (7 ≤ history.length → ∃ i, detectarMudancaPonto history = some i ∧
      3 ≤ i ∧ i ≤ history.length - 4 ∧
      ∀ j, 3 ≤ j → j ≤ history.length - 4 →
        splitVariance (history.map Sample.temp) i ≤
          splitVariance (history.map Sample.temp) j) := by
  constructor
  · intro hlen
    unfold detectarMudancaPonto
    by_cases h6 : history.length < 6
    · rw [if_pos h6]
    · rw [if_neg h6]
      have : history.length - 6 = 0 := by omega
      rw [this, List.range'_zero]
      rfl
  · intro hlen
    unfold detectarMudancaPonto
    rw [if_neg (by omega)]
    have hsplit : history.length - 6 = (history.length - 7) + 1 := by omega
    rw [hsplit, List.range'_succ]
    have hstep : bestSplitAux (history.map Sample.temp)
        (3 :: List.range' (3 + 1) (history.length - 7)) none =
        bestSplitAux (history.map Sample.temp) (List.range' 4 (history.length - 7))
          (some (splitVariance (history.map Sample.temp) 3, 3)) := by
      rfl
    rw [hstep]
    obtain ⟨v, i, heq, hvi, hmem, hle, hmin⟩ :=
      bestSplitAux_spec (history.map Sample.temp)
        (List.range' 4 (history.length - 7)) (splitVariance (history.map Sample.temp) 3) 3 rfl
    refine ⟨i, ?_, ?_, ?_, ?_⟩
    · rw [heq]; rfl
    · rcases hmem with rfl | hmem
      · exact le_refl _
      · have := mem_range'_one.mp hmem
        omega
    · rcases hmem with rfl | hmem
      · omega
      · have := mem_range'_one.mp hmem
        omega
    · intro j hj3 hj4
      by_cases hj : j = 3
      · subst hj
        exact hvi ▸ hle
      · have hjm : j ∈ List.range' 4 (history.length - 7) :=
          mem_range'_one.mpr ⟨by omega, by omega⟩
        exact hvi ▸ hmin j hjm

/-- Witness for C9 at a concrete 7-sample history. -/
theorem changePoint_range_and_minimality_witness :
    ∃ i, detectarMudancaPonto
        [Sample.mk 0 0, Sample.mk 10000 1, Sample.mk 20000 0, Sample.mk 30000 5,
         Sample.mk 40000 5, Sample.mk 50000 5, Sample.mk 60000 5] = some i ∧
      3 ≤ i ∧ i ≤ 7 - 4 ∧
      ∀ j, 3 ≤ j → j ≤ 7 - 4 →
        splitVariance ([Sample.mk 0 0, Sample.mk 10000 1, Sample.mk 20000 0, Sample.mk 30000 5,
          Sample.mk 40000 5, Sample.mk 50000 5, Sample.mk 60000 5].map Sample.temp) i ≤
        splitVariance ([Sample.mk 0 0, Sample.mk 10000 1, Sample.mk 20000 0, Sample.mk 30000 5,
          Sample.mk 40000 5, Sample.mk 50000 5, Sample.mk 60000 5].map Sample.temp) j :=
  (changePoint_range_and_minimality _).2 (by decide)

/-- C9 counterexample: a 6-sample history, for which the claim demands a
change point in the closed range `[3, 6 − 3] = {3}` minimising the
variance sum, but the source loop `for (i = 3; i < 6 - 3; i++)` never
runs and `null` is returned. -/
theorem changePoint_claim_counterexample :
    ([Sample.mk 0 0, Sample.mk 10000 1, Sample.mk 20000 0,
      Sample.mk 30000 5, Sample.mk 40000 5, Sample.mk 50000 5] : List Sample).length = 6 ∧
    detectarMudancaPonto
      [Sample.mk 0 0, Sample.mk 10000 1, Sample.mk 20000 0,
       Sample.mk 30000 5, Sample.mk 40000 5, Sample.mk 50000 5] = none := by
  constructor
  · rfl
  · rfl

/-! ## MAC canonicalisation (`formatarMac`, `src/utils/formatters.js`) -/

/-- The replacement `mac.replace(/(.{2})(?=.)/g, '$1:')`: working left to
right, every pair of characters that is followed by at least one more
character gets a `':'` appended after it. -/
def insertColons : List Char → List Char
  | a :: b :: c :: rest => a :: b :: ':' :: insertColons (c :: rest)
  | l => l

/-- `formatarMac` on a non-null string (modelled as a list of
characters): a string already containing `':'` is returned unchanged,
otherwise colons are inserted by the replacement above. -/
def formatarMac (s : List Char) : List Char :=
  if ':' ∈ s then s else insertColons s

/-- Modelled from the spec: "insert `:` every two hex chars" — split the
string into chunks of two characters (the last chunk may be a single
character) … -/
def chunksOfTwo : List Char → List (List Char)
  | [] => []
  | [a] => [[a]]
  | a :: b :: rest => [a, b] :: chunksOfTwo rest

/-- … and join the chunks with `':'` separators. -/
def joinColon : List (List Char) → List Char
  | [] => []
  | [c] => c
  | c :: rest => c ++ ':' :: joinColon rest

theorem insertColons_eq_joinColon_chunksOfTwo (s : List Char) :
    insertColons s = joinColon (chunksOfTwo s) := by
  have H : ∀ n (t : List Char), t.length ≤ n →
      insertColons t = joinColon (chunksOfTwo t) := by
    intro n
    induction n with
    | zero =>
      intro t ht
      have : t = [] := List.length_eq_zero.mp (Nat.le_zero.mp ht)
      subst this
      rfl
    | succ n ih =>
      intro t ht
      match t with
      | [] => rfl
      | [a] => rfl
      | [a, b] => rfl
      | a :: b :: c :: rest =>
        have hlen : (c :: rest).length ≤ n := by
          simp at ht ⊢
          omega
        have hrec := ih (c :: rest) hlen
        show a :: b :: ':' :: insertColons (c :: rest) =
          joinColon ([a, b] :: chunksOfTwo (c :: rest))
        rw [hrec]
        have hne : chunksOfTwo (c :: rest) ≠ [] := by
          match rest with
          | [] => simp [chunksOfTwo]
          | d :: rest2 => simp [chunksOfTwo]
        match hch : chunksOfTwo (c :: rest) with
        | [] => exact absurd hch hne
        | ch :: chs => rfl
  exact H s.length s (le_refl _)

theorem insertColons_short (s : List Char) (h : s.length ≤ 2) :
    insertColons s = s := by
  match s with
  | [] => rfl
  | [a] => rfl
  | [a, b] => rfl
  | a :: b :: c :: rest => simp at h

theorem insertColons_mem_colon (s : List Char) (h : 3 ≤ s.length) :
    ':' ∈ insertColons s := by
  match s with
  | a :: b :: c :: rest =>
    show ':' ∈ a :: b :: ':' :: insertColons (c :: rest)
    simp
  | [] => simp at h
  | [a] => simp at h
  | [a, b] => simp at h

/-- C10: MAC canonicalisation is idempotent, any input already
containing a colon is returned unchanged, and an input without colons
is rewritten to its two-character chunks joined by colons (the
replacement `/(.{2})(?=.)/g` inserts a colon after every pair that is
followed by another character). -/
theorem formatarMac_idempotent_and_chunks (s : List Char) :
    formatarMac (formatarMac s) = formatarMac s ∧
    (':' ∈ s → formatarMac s = s) ∧
    (':' ∉ s → formatarMac s = joinColon (chunksOfTwo s)) := by
  refine ⟨?_, ?_, ?_⟩
  · by_cases hc : ':' ∈ s
    · simp [formatarMac, hc]
    · by_cases hlen : 3 ≤ s.length
      · have h1 : formatarMac s = insertColons s := by
          rw [formatarMac, if_neg hc]
        rw [h1, formatarMac, if_pos (insertColons_mem_colon s hlen)]
      · have hshort : s.length ≤ 2 := by omega
        have h1 : formatarMac s = s := by
          rw [formatarMac, if_neg hc, insertColons_short s hshort]
        rw [h1]
        exact h1
  · intro hc
    simp [formatarMac, hc]
  · intro hc
    rw [formatarMac, if_neg hc]
    exact insertColons_eq_joinColon_chunksOfTwo s

/-- Witness for C10 on the concrete MAC `"AABBCC"`. -/
theorem formatarMac_idempotent_and_chunks_witness :
    formatarMac (formatarMac ['A', 'A', 'B', 'B', 'C', 'C']) =
      formatarMac ['A', 'A', 'B', 'B', 'C', 'C'] ∧
    formatarMac ['A', 'A', 'B', 'B', 'C', 'C'] =
      joinColon (chunksOfTwo ['A', 'A', 'B', 'B', 'C', 'C']) := by
  have h := formatarMac_idempotent_and_chunks ['A', 'A', 'B', 'B', 'C', 'C']
  exact ⟨h.1, h.2.2 (by decide)⟩

/-! ## Constants and data model of the per-sensor state machine -/

/-- `Number(process.env.GLOBAL_TEMP_MAX) || -5.0` with unset env. -/
def ENV_TEMP_MAX_NORMAL : ℚ := -5
/-- `Number(process.env.GLOBAL_TEMP_MIN) || -30.0` with unset env. -/
def ENV_TEMP_MIN_GLOBAL : ℚ := -30
def ENV_TEMP_MAX_HIGH_TRAFFIC : ℚ := -2
def EXTREME_DEVIATION_C : ℚ := 10
def ALERT_SOAK_TIME_MS : ℤ := 10 * 60 * 1000
def CALL_PERSISTENCE_MS : ℤ := 30 * 60 * 1000
def DEFROST_CYCLE_MIN_DURATION_MS : ℤ := 5 * 60 * 1000
def DEFROST_CYCLE_MAX_DURATION_MS : ℤ := 60 * 60 * 1000
def MIN_DEFROST_DURATION_BEFORE_END_MS : ℤ := 2 * 60 * 1000
def MIN_DATA_POINTS : ℕ := 10
def DB_MIN_VAR_TEMP : ℚ := 0.2
def DB_MIN_VAR_HUM : ℚ := 2
def DB_HEARTBEAT_MS : ℤ := 10 * 60 * 1000

/-- Per-profile tuning constants (`TUNING_NORMAL` / `TUNING_ULTRA`). -/
structure Tuning where
  DOOR_ACCEL : ℚ
  DOOR_SLOPE : ℚ
  STD_ERROR_DOOR : ℚ
  DEFROST_MAX_SLOPE : ℚ
  DEFROST_MIN_R2 : ℚ
  DEFROST_MIN_SLOPE : ℚ
  DEFROST_VARIANCE_THRESHOLD : ℚ
  DOOR_VARIANCE_THRESHOLD : ℚ
  EMA_ALPHA : ℚ
deriving DecidableEq, Repr

def TUNING_NORMAL : Tuning :=
  ⟨0.3, 0.9, 0.45, 0.8, 0.85, 0.15, 0.5, 1.2, 0.3⟩

def TUNING_ULTRA : Tuning :=
  ⟨0.6, 1.5, 0.65, 4, 0.9, 0.25, 0.8, 1.5, 0.25⟩

/-- Phase tag of `analisarCicloDegelo`. -/
inductive Phase where
  | RISING
  | FALLING
  | PEAK
  | UNKNOWN
deriving DecidableEq, Repr

/-- Result record of `analisarCicloDegelo` (oracle; see file header). -/
structure CicloDegelo where
  isDefrostPattern : Bool
  risingSlope : ℚ
  fallingSlope : ℚ
  phase : Phase
deriving DecidableEq, Repr

/-- `segmentAnalysis` record of `analisarTendencia` (oracle). -/
structure SegmentAnalysis where
  changePoint : ℕ
  slope1 : ℚ
  slope2 : ℚ
  slopeChange : ℚ
deriving DecidableEq, Repr

/-- The metrics record returned by `analisarTendencia` when `ready`
(oracle; only the fields read by `verificarSensor` are modelled). -/
structure IAStats where
  slope : ℚ
  acceleration : ℚ
  jerk : ℚ
  stdError : ℚ
  variance : ℚ
  r2 : ℚ
  cicloDegelo : Option CicloDegelo
  changePoint : Option ℕ
  segmentAnalysis : Option SegmentAnalysis
deriving DecidableEq, Repr

/-- The per-sensor `alertControl` entry.  `Option` fields model
presence/absence of the corresponding JavaScript object fields. -/
structure Ctrl where
  last_virtual_state : Bool := false
  is_defrosting : Bool := false
  defrost_start_ts : Option ℤ := none
  defrost_start_temp : Option ℚ := none
  defrost_peak_temp : Option ℚ := none
  defrost_end_ts : Option ℤ := none
  defrost_just_started : Bool := false
  last_variance : Option ℚ := none
  last_analysis_ts : Option ℤ := none
  last_alert_sent_ts : Option ℤ := none
deriving DecidableEq, Repr

/-- Sensor configuration row (`sensor_configs`); `none` models SQL null. -/
structure Config where
  temp_max : Option ℚ
  temp_min : Option ℚ
  hum_max : Option ℚ
  hum_min : Option ℚ
  em_manutencao : Bool
deriving DecidableEq, Repr

/-- The problem kinds carried by `mensagemProblema` (the source builds
display strings; only the kind is observable to the alert logic). -/
inductive Problema where
  | degeloAnormal
  | tempExtremaDegelo
  | tempBaixa
  | tempAlta
  | previsaoCritica
  | previsao
  | umidAlta
  | umidBaixa
deriving DecidableEq, Repr

inductive Prioridade where
  | PREDITIVA
  | ALTA
  | CRITICA
  | SISTEMA
deriving DecidableEq, Repr

/-- An `alertWatchlist` entry: `{first_seen, msg}`. -/
structure WatchEntry where
  first_seen : ℤ
  msg : Problema
deriving DecidableEq, Repr

/-- `dadosPrevisao` of a predictive alert (raw values; the source only
rounds them for display). -/
structure Previsao where
  tempo_restante : ℚ
  temp_projetada : ℚ
  diferenca_projetada : ℚ
  confianca_r2 : ℚ
deriving DecidableEq, Repr

/-- An emitted alert (per-sensor observables only). -/
structure Alerta where
  prioridade : Prioridade
  mensagem : Problema
  ts : ℤ
  previsao : Option Previsao
deriving DecidableEq, Repr

/-- One inbound sensor entry; `temp` is assumed present (the dispatcher
only persists when `sensor.temp !== undefined`, and every claim is about
readings that carry a temperature). -/
structure Leitura where
  temp : ℚ
  humidity : Option ℚ
deriving DecidableEq, Repr

/-- JavaScript `x || d` on an optional number: `0` is falsy. -/
def jsOrQ (x : Option ℚ) (d : ℚ) : ℚ :=
  match x with
  | none => d
  | some v => if v = 0 then d else v

/-- JavaScript `x || d` on an optional millisecond timestamp. -/
def jsOrZ (x : Option ℤ) (d : ℤ) : ℤ :=
  match x with
  | none => d
  | some v => if v = 0 then d else v

/-- `config.temp_min && config.temp_min < -15` (a configured `0` is
falsy in JavaScript, and also fails `< -15`). -/
def isUltraOf (config : Config) : Bool :=
  match config.temp_min with
  | some t => decide (t < -15)
  | none => false

/-- `LIMIT_TEMP_MAX`: the configured bound when non-null, else the
high-traffic fallback on Wed/Thu (`isAltoFluxo`), else the global one. -/
def limitTempMax (config : Config) (isAltoFluxo : Bool) : ℚ :=
  match config.temp_max with
  | some t => t
  | none => if isAltoFluxo then ENV_TEMP_MAX_HIGH_TRAFFIC else ENV_TEMP_MAX_NORMAL

/-- `LIMIT_TEMP_MIN`: the configured bound when non-null, else −30. -/
def limitTempMin (config : Config) : ℚ :=
  match config.temp_min with
  | some t => t
  | none => ENV_TEMP_MIN_GLOBAL

/-! ## Defrost detection (`verificarSensor`, `index.js` lines 666-829) -/

/-- Defrost start detection ("DETECÇÃO DE INÍCIO DE DEGELO", lines
686-732): three criteria, evaluated only when not already defrosting. -/
def verificarDegeloInicio (isUltra : Bool) (now : ℤ) (val : ℚ) (stats : IAStats)
    (ctrl : Ctrl) : Ctrl :=
  let T := if isUltra then TUNING_ULTRA else TUNING_NORMAL
  let isRising := decide (T.DEFROST_MIN_SLOPE < stats.slope)
  let isStableRise := decide (stats.stdError < T.DEFROST_VARIANCE_THRESHOLD) &&
    decide (T.DEFROST_MIN_R2 < stats.r2)
  let hasLowVariance := decide (stats.variance < T.DEFROST_VARIANCE_THRESHOLD)
  let hasDefrostCycle := (stats.cicloDegelo.map CicloDegelo.isDefrostPattern).getD false
  let isInRisingPhase :=
    (stats.cicloDegelo.map (fun c => decide (c.phase = Phase.RISING))).getD false
  if !ctrl.is_defrosting then
    let criteria1 := isRising && isStableRise && hasLowVariance
    let criteria2 := hasDefrostCycle && isInRisingPhase &&
      (stats.cicloDegelo.map (fun c => decide (T.DEFROST_MIN_SLOPE < c.risingSlope))).getD false
    let criteria3 := isUltra && isRising && decide ((0.88 : ℚ) < stats.r2) &&
      decide ((0.3 : ℚ) < stats.slope) && decide (stats.stdError < 0.6)
    if criteria1 || criteria2 || criteria3 then
      { ctrl with
        is_defrosting := true
        defrost_start_ts := some now
        defrost_start_temp := some val
        defrost_peak_temp := some val
        defrost_just_started := true }
    else ctrl
  else ctrl

/-- Defrost end detection ("DETECÇÃO DE FIM DE DEGELO", lines 734-829):
runs on the control record already updated by the start detection, so a
defrost started in this very call only has its `defrost_just_started`
flag cleared. -/
def verificarDegeloFim (isUltra : Bool) (now : ℤ) (val : ℚ) (stats : IAStats)
    (ctrl1 : Ctrl) : Ctrl :=
  let isInRisingPhase :=
    (stats.cicloDegelo.map (fun c => decide (c.phase = Phase.RISING))).getD false
  let isInFallingPhase :=
    (stats.cicloDegelo.map (fun c => decide (c.phase = Phase.FALLING))).getD false
  if ctrl1.is_defrosting then
    if ctrl1.defrost_just_started then { ctrl1 with defrost_just_started := false }
    else
      let ctrl2 :=
        if jsOrQ ctrl1.defrost_peak_temp val < val then
          { ctrl1 with defrost_peak_temp := some val }
        else ctrl1
      let defrostDurationRecalc := now - jsOrZ ctrl2.defrost_start_ts now
      if defrostDurationRecalc < MIN_DEFROST_DURATION_BEFORE_END_MS then ctrl2
      else
        let criteria1 := decide (stats.slope < -0.3) && decide ((0.7 : ℚ) < stats.r2)
        let criteria2 := isInFallingPhase && !isInRisingPhase &&
          (stats.cicloDegelo.map (fun c => decide (c.fallingSlope < -0.15))).getD false
        let criteria3 := decide (DEFROST_CYCLE_MAX_DURATION_MS < defrostDurationRecalc)
        let tempRecovered :=
          decide (val ≤ jsOrQ ctrl2.defrost_start_temp val + (if isUltra then (3 : ℚ) else 2))
        let criteria4 := tempRecovered &&
          decide (DEFROST_CYCLE_MIN_DURATION_MS < defrostDurationRecalc) &&
          decide (stats.slope < -0.1) && !isInRisingPhase
        if criteria1 || criteria2 || criteria3 || criteria4 then
          { ctrl2 with
            is_defrosting := false
            defrost_end_ts := some now
            defrost_start_ts := none
            defrost_start_temp := none
            defrost_peak_temp := none }
        else ctrl2
  else ctrl1

/-- Defrost start/end detection.  Runs only when the analyzer is ready;
`stats` is the oracle record of that analysis. -/
def verificarDegelo (isUltra : Bool) (now : ℤ) (val : ℚ) (stats : IAStats)
    (ctrl : Ctrl) : Ctrl :=
  verificarDegeloFim isUltra now val stats (verificarDegeloInicio isUltra now val stats ctrl)

/-! ## Virtual door detection (`verificarSensor`, `index.js` lines 831-1009) -/

/-- The door-state decision of lines 849-974: forced close inside a
stable in-range window, otherwise the open criteria (only from a closed
state) followed by the close criteria (also on a state opened in this
same call); during defrost the state is forced closed. -/
def verificarPortaEstado (isUltra : Bool) (limMin limMax : ℚ) (val : ℚ)
    (stats : IAStats) (ctrl : Ctrl) : Bool :=
  let T := if isUltra then TUNING_ULTRA else TUNING_NORMAL
  if !ctrl.is_defrosting then
    let tempDentroRange := decide (limMin ≤ val) && decide (val ≤ limMax)
    let tempEstavel := decide (|stats.slope| < 0.1) &&
      decide (stats.variance < T.DOOR_VARIANCE_THRESHOLD * 0.5) &&
      decide ((0.7 : ℚ) < stats.r2)
    let cs0 := ctrl.last_virtual_state
    if tempDentroRange && tempEstavel then false
    else
      let csOpen :=
        if !cs0 then
          let criteria1 := decide (T.DOOR_ACCEL < stats.acceleration)
          let criteria2 := decide (T.DOOR_SLOPE < stats.slope)
          let criteria3 := decide (T.DOOR_VARIANCE_THRESHOLD < stats.variance) &&
            decide ((0.5 : ℚ) < stats.slope) && decide (stats.r2 < 0.6)
          let criteria4 :=
            match stats.changePoint, stats.segmentAnalysis with
            | some cp, some sa =>
                decide (cp ≠ 0) && decide ((1 : ℚ) < |sa.slopeChange|) &&
                decide (T.DOOR_VARIANCE_THRESHOLD < stats.variance)
            | _, _ => false
          let criteria5 := decide ((0.5 : ℚ) < |stats.jerk|) &&
            decide ((0.3 : ℚ) < stats.slope)
          if criteria1 || criteria2 || criteria3 || criteria4 || criteria5 then true else cs0
        else cs0
      let csClose :=
        if csOpen then
          let criteria1 := decide (stats.slope < -0.1) && decide ((0.5 : ℚ) < stats.r2)
          let criteria2 := decide (stats.slope < 0.1) && decide (stats.acceleration < -0.1)
          let prevVariance := jsOrQ ctrl.last_variance stats.variance
          let criteria3 := decide (stats.variance < prevVariance * 0.7) &&
            decide (stats.variance < T.DOOR_VARIANCE_THRESHOLD * 0.8)
          if criteria1 || criteria2 || criteria3 then false else csOpen
        else csOpen
      csClose
  else false

/-- Door open/close detection.  Runs only when the analyzer is ready
(in the source the stability check repeats `iaStats.ready`, which is
true here).  Returns the updated control record (`last_variance` is
stored only outside defrost, lines 969-970) and the door-log event
(`is_open`) pushed on a state change. -/
def verificarPorta (isUltra : Bool) (limMin limMax : ℚ) (now : ℤ) (val : ℚ)
    (stats : IAStats) (ctrl : Ctrl) : Ctrl × Option Bool :=
  let currentState := verificarPortaEstado isUltra limMin limMax val stats ctrl
  let ctrl1 :=
    if !ctrl.is_defrosting then { ctrl with last_variance := some stats.variance }
    else ctrl
  let doorEvent := if currentState != ctrl.last_virtual_state then some currentState else none
  ({ ctrl1 with
      last_virtual_state := currentState
      last_analysis_ts := some now }, doorEvent)

/-! ## Alert thresholds (`verificarSensor`, `index.js` lines 1011-1145) -/

/-- Intermediate result of the threshold section: the problem message,
its priority, the `desvioExtremo` flag, the predictive payload and the
(possibly dropped) watchlist entry. -/
structure ProblemaEval where
  mensagem : Option Problema
  prioridade : Prioridade
  desvioExtremo : Bool
  previsao : Option Previsao
  watch : Option WatchEntry
deriving DecidableEq, Repr

/-- Temperature thresholds with defrost suppression, hard limits and the
predictive projection.  Runs only when the analyzer is ready.  The
predictive block is a separate `if` after the hard-limit `else if`
chain, so its message can overwrite a hard-limit message. -/
def avaliarProblemaTemp (isUltra : Bool) (limMin limMax : ℚ) (val : ℚ)
    (stats : IAStats) (ctrl : Ctrl) (watch : Option WatchEntry) : ProblemaEval :=
  if ctrl.is_defrosting then
    let defrostTolerance : ℚ := if isUltra then 25 else 15
    if limMax + defrostTolerance + 5 < val then
      ⟨some .degeloAnormal, .ALTA, true, none, watch⟩
    else if val < limMin - 5 then
      ⟨some .tempExtremaDegelo, .ALTA, false, none, watch⟩
    else
      ⟨none, .ALTA, false, none, none⟩
  else
    let hard : Option Problema × Bool :=
      if val < limMin then (some .tempBaixa, decide (val < limMin - EXTREME_DEVIATION_C))
      else if limMax < val then (some .tempAlta, decide (limMax + EXTREME_DEVIATION_C < val))
      else (none, false)
    let msg1 := hard.1
    let desvio1 := hard.2
    let hasDefrostCycleCheck := (stats.cicloDegelo.map CicloDegelo.isDefrostPattern).getD false
    if decide ((0.1 : ℚ) < stats.slope) && decide ((0.6 : ℚ) < stats.r2) &&
        !hasDefrostCycleCheck then
      let tempFutura15Min := val + stats.slope * 15
      let diferencaProjetada := tempFutura15Min - limMax
      if (10 : ℚ) ≤ diferencaProjetada then
        let tempoRestante := (limMax - val) / stats.slope
        if 0 < tempoRestante ∧ tempoRestante < 20 then
          ⟨some .previsaoCritica, .CRITICA, desvio1,
            some ⟨tempoRestante, tempFutura15Min, diferencaProjetada, stats.r2⟩, watch⟩
        else ⟨msg1, .ALTA, desvio1, none, watch⟩
      else if (5 : ℚ) ≤ diferencaProjetada then
        let tempoRestante := (limMax - val) / stats.slope
        if 0 < tempoRestante ∧ tempoRestante < 20 then
          ⟨some .previsao, .PREDITIVA, desvio1,
            some ⟨tempoRestante, tempFutura15Min, diferencaProjetada, stats.r2⟩, watch⟩
        else ⟨msg1, .ALTA, desvio1, none, watch⟩
      else ⟨msg1, .ALTA, desvio1, none, watch⟩
    else ⟨msg1, .ALTA, desvio1, none, watch⟩

/-- Humidity validation (`index.js` lines 1139-1145); a null or zero
bound is falsy and disables the check. -/
def avaliarUmidade (humidity : Option ℚ) (hum_max hum_min : Option ℚ) : Option Problema :=
  match humidity with
  | none => none
  | some valHum =>
    let humMaxAtiva :=
      match hum_max with
      | some h => decide (h ≠ 0) && decide (h < valHum)
      | none => false
    if humMaxAtiva then some .umidAlta
    else
      let humMinAtiva :=
        match hum_min with
        | some h => decide (h ≠ 0) && decide (valHum < h)
        | none => false
      if humMinAtiva then some .umidBaixa else none

/-! ## Watchlist, soak and cooldown (`index.js` lines 1147-1223) -/

/-- `soakNecessario`: half the 10-minute soak for `PREDITIVA`. -/
def soakNecessarioMs (p : Prioridade) : ℤ :=
  if p = .PREDITIVA then ALERT_SOAK_TIME_MS / 2 else ALERT_SOAK_TIME_MS

/-- `cooldownEnvio`: 60 minutes for `PREDITIVA`, else 15 minutes. -/
def cooldownEnvioMs (p : Prioridade) : ℤ :=
  if p = .PREDITIVA then 60 * 60000 else 15 * 60000

/-- Watchlist management and alert emission: on no problem, drop the
entry; on a first occurrence, create the entry and return no alert;
otherwise check soak, promote to `CRITICA` after 30 minutes of extreme
deviation, and emit subject to the per-sensor cooldown. -/
def processarWatchlist (now : ℤ) (msgProblema : Option Problema) (prio0 : Prioridade)
    (desvioExtremo : Bool) (previsao : Option Previsao) (ctrl : Ctrl)
    (watch : Option WatchEntry) : Ctrl × Option WatchEntry × Option Alerta :=
  match msgProblema with
  | none => (ctrl, none, none)
  | some msg =>
    match watch with
    | none => (ctrl, some ⟨now, msg⟩, none)
    | some entry =>
      let tempoDecorrido := now - entry.first_seen
      let soakNecessario := soakNecessarioMs prio0
      if tempoDecorrido < soakNecessario then (ctrl, some entry, none)
      else
        let prioridade :=
          if decide (CALL_PERSISTENCE_MS < tempoDecorrido) && desvioExtremo then
            Prioridade.CRITICA
          else prio0
        let lastSent := jsOrZ ctrl.last_alert_sent_ts 0
        let cooldownEnvio := cooldownEnvioMs prioridade
        if cooldownEnvio < now - lastSent then
          ({ ctrl with last_alert_sent_ts := some now }, some entry,
            some ⟨prioridade, msg, now, previsao⟩)
        else (ctrl, some entry, none)

/-! ## `verificarSensor` assembled -/

/-- Result of one `verificarSensor` call, projected on one sensor:
the `alertControl` entry (`none` = absent from the map), the
`alertWatchlist` entry, the returned alert, the door-log record pushed
(if any, carrying `is_open`) and the updated rolling history. -/
structure VSOut where
  ctrl : Option Ctrl
  watch : Option WatchEntry
  alerta : Option Alerta
  doorEvent : Option Bool
  history : List Sample
deriving DecidableEq, Repr

/-- `iaStats.ready`: the analyzer is ready when the updated history
holds at least `MIN_DATA_POINTS` samples. -/
def vsReady (now : ℤ) (leitura : Leitura) (history0 : List Sample) : Bool :=
  decide (MIN_DATA_POINTS ≤ (windowAppend now leitura.temp history0).length)

/-- The control record after the defrost detector (`index.js` lines
666-829); the detector runs only when the analyzer is ready. -/
def vsCtrl1 (config : Config) (leitura : Leitura) (now : ℤ) (ctrl0 : Option Ctrl)
    (history0 : List Sample) (stats : IAStats) : Ctrl :=
  if vsReady now leitura history0 then
    verificarDegelo (isUltraOf config) now leitura.temp stats (ctrl0.getD {})
  else ctrl0.getD {}

/-- The control record and door event after the door detector
(`index.js` lines 831-1009); runs only when the analyzer is ready. -/
def vsPorta (config : Config) (leitura : Leitura) (now : ℤ) (isAltoFluxo : Bool)
    (ctrl0 : Option Ctrl) (history0 : List Sample) (stats : IAStats) : Ctrl × Option Bool :=
  if vsReady now leitura history0 then
    verificarPorta (isUltraOf config) (limitTempMin config) (limitTempMax config isAltoFluxo)
      now leitura.temp stats (vsCtrl1 config leitura now ctrl0 history0 stats)
  else (vsCtrl1 config leitura now ctrl0 history0 stats, none)

/-- The temperature-threshold evaluation (`index.js` lines 1011-1135);
runs only when the analyzer is ready, otherwise `mensagemProblema`
stays null and the watchlist entry passes through untouched. -/
def vsPe (config : Config) (leitura : Leitura) (now : ℤ) (isAltoFluxo : Bool)
    (ctrl0 : Option Ctrl) (watch0 : Option WatchEntry) (history0 : List Sample)
    (stats : IAStats) : ProblemaEval :=
  if vsReady now leitura history0 then
    avaliarProblemaTemp (isUltraOf config) (limitTempMin config)
      (limitTempMax config isAltoFluxo) leitura.temp stats
      (vsPorta config leitura now isAltoFluxo ctrl0 history0 stats).1 watch0
  else ⟨none, .ALTA, false, none, watch0⟩

/-- `mensagemProblema` after the humidity validation (`index.js` lines
1139-1145): humidity is checked only when no temperature problem. -/
def vsMsg (config : Config) (leitura : Leitura) (now : ℤ) (isAltoFluxo : Bool)
    (ctrl0 : Option Ctrl) (watch0 : Option WatchEntry) (history0 : List Sample)
    (stats : IAStats) : Option Problema :=
  match (vsPe config leitura now isAltoFluxo ctrl0 watch0 history0 stats).mensagem with
  | some m => some m
  | none => avaliarUmidade leitura.humidity config.hum_max config.hum_min

/-- Watchlist management outcome of the call (`index.js` lines
1147-1223). -/
def vsWres (config : Config) (leitura : Leitura) (now : ℤ) (isAltoFluxo : Bool)
    (ctrl0 : Option Ctrl) (watch0 : Option WatchEntry) (history0 : List Sample)
    (stats : IAStats) : Ctrl × Option WatchEntry × Option Alerta :=
  let pe := vsPe config leitura now isAltoFluxo ctrl0 watch0 history0 stats
  processarWatchlist now (vsMsg config leitura now isAltoFluxo ctrl0 watch0 history0 stats)
    pe.prioridade pe.desvioExtremo pe.previsao
    (vsPorta config leitura now isAltoFluxo ctrl0 history0 stats).1 pe.watch

/-- `verificarSensor` (`index.js` lines 633-1224).  `isAltoFluxo` stands
for `DAYS_HIGH_TRAFFIC.includes(moment(now).tz(...).day())`, which is a
pure function of the wall clock and time zone and is passed as an
input.  `stats` is the analyzer oracle (see file header); the `ready`
flag is computed exactly, from the updated history length.  The
`alertControl` entry exists after the call iff it existed before, or a
`alertControl.set` ran (always in the ready block, and on emission). -/
def verificarSensor (config : Config) (leitura : Leitura) (now : ℤ) (isAltoFluxo : Bool)
    (ctrl0 : Option Ctrl) (watch0 : Option WatchEntry) (history0 : List Sample)
    (stats : IAStats) : VSOut :=
  if config.em_manutencao then
    { ctrl := none, watch := none, alerta := none, doorEvent := none, history := history0 }
  else
    let wres := vsWres config leitura now isAltoFluxo ctrl0 watch0 history0 stats
    let emitted := wres.2.2.isSome
    let ctrlOut := if ctrl0.isSome || vsReady now leitura history0 || emitted then
        some wres.1
      else none
    { ctrl := ctrlOut
      watch := wres.2.1
      alerta := wres.2.2
      doorEvent := (vsPorta config leitura now isAltoFluxo ctrl0 history0 stats).2
      history := windowAppend now leitura.temp history0 }

/-! ## Ingestion step per sensor (`client.on('message')`, lines 1455-1508) -/

/-- `lastReadings` entry with the defaults of line 1455:
`{ ts: 0, db_temp: -999, db_hum: -999, db_ts: 0 }`.  `db_hum` becomes
the raw (possibly undefined) humidity on each persist, hence `Option`. -/
structure LastReading where
  ts : ℤ := 0
  db_temp : ℚ := -999
  db_hum : Option ℚ := some (-999)
  db_ts : ℤ := 0
deriving DecidableEq, Repr

/-- A `telemetry_logs` record (per-sensor observables only). -/
structure TelemetryRecord where
  ts : ℤ
  temp : ℚ
  hum : Option ℚ
deriving DecidableEq, Repr

/-- All per-sensor in-memory state touched by one reading. -/
structure SensorState where
  ctrl : Option Ctrl := none
  watch : Option WatchEntry := none
  history : List Sample := []
deriving DecidableEq, Repr

/-- Result of processing one reading for one (non-blocklisted,
configured) sensor inside the message handler. -/
structure ProcOut where
  state : SensorState
  last : LastReading
  alerta : Option Alerta
  telemetry : Option TelemetryRecord
  doorEvent : Option Bool
deriving DecidableEq, Repr

/-- The deadband condition of line 1472:
`diffTemp >= DB_MIN_VAR_TEMP || diffHum >= DB_MIN_VAR_HUM ||
timeSinceLastDB > DB_HEARTBEAT_MS` (note the strict `>` on the
heartbeat term).  `diffHum` compares against the raw stored humidity;
once an undefined humidity has been stored the comparison is
`NaN >= 2.0`, which is false (the `none` branch). -/
def persistirLeitura (leitura : Leitura) (now : ℤ) (last : LastReading) : Bool :=
  decide (DB_MIN_VAR_TEMP ≤ |leitura.temp - last.db_temp|) ||
  (match last.db_hum with
   | some h => decide (DB_MIN_VAR_HUM ≤ |leitura.humidity.getD 0 - h|)
   | none => false) ||
  decide (DB_HEARTBEAT_MS < now - last.db_ts)

/-- One per-sensor iteration of `client.on('message')` (lines
1455-1508): run `verificarSensor`, then the deadband-filtered telemetry
persistence gated by `persistirLeitura`, then update `last.ts`. -/
def processarLeituraSensor (config : Config) (leitura : Leitura) (now : ℤ)
    (isAltoFluxo : Bool) (stats : IAStats) (s : SensorState)
    (last0 : Option LastReading) : ProcOut :=
  let last := last0.getD {}
  let vs := verificarSensor config leitura now isAltoFluxo s.ctrl s.watch s.history stats
  let res : Option TelemetryRecord × LastReading :=
    if persistirLeitura leitura now last then
      (some ⟨now, leitura.temp, leitura.humidity⟩,
        { last with
          db_temp := leitura.temp
          db_hum := leitura.humidity
          db_ts := now })
    else (none, last)
  { state := { ctrl := vs.ctrl, watch := vs.watch, history := vs.history }
    last := { res.2 with ts := now }
    alerta := vs.alerta
    telemetry := res.1
    doorEvent := vs.doorEvent }

/-! ## Traces of processed readings -/

/-- One inbound reading together with its arrival instant and the
analyzer oracle for that instant. -/
structure StepInput where
  now : ℤ
  leitura : Leitura
  isAltoFluxo : Bool
  stats : IAStats
deriving Repr

/-- Full per-sensor state between readings. -/
structure FullState where
  sensor : SensorState := {}
  last : Option LastReading := none
deriving DecidableEq, Repr

/-- Process one reading against the full per-sensor state. -/
def stepFull (config : Config) (st : FullState) (inp : StepInput) :
    FullState × Option Alerta :=
  let r := processarLeituraSensor config inp.leitura inp.now inp.isAltoFluxo
    inp.stats st.sensor st.last
  ({ sensor := r.state, last := some r.last }, r.alerta)

def runTraceAux (config : Config) : List StepInput → FullState × List Alerta →
    FullState × List Alerta
  | [], acc => acc
  | inp :: rest, acc =>
      let r := stepFull config acc.1 inp
      runTraceAux config rest (r.1, acc.2 ++ r.2.toList)

/-- Run a whole trace of readings for a fixed configuration, starting
from the initial (empty) state; collects the emitted alerts in order. -/
def runTrace (config : Config) (inputs : List StepInput) : FullState × List Alerta :=
  runTraceAux config inputs ({}, [])

/-! ## Stage lemmas -/

theorem verificarDegeloInicio_lastSent (isUltra : Bool) (now : ℤ) (val : ℚ)
    (stats : IAStats) (ctrl : Ctrl) :
    (verificarDegeloInicio isUltra now val stats ctrl).last_alert_sent_ts =
      ctrl.last_alert_sent_ts := by
  simp only [verificarDegeloInicio]
  split_ifs <;> rfl

theorem verificarDegeloFim_lastSent (isUltra : Bool) (now : ℤ) (val : ℚ)
    (stats : IAStats) (ctrl1 : Ctrl) :
    (verificarDegeloFim isUltra now val stats ctrl1).last_alert_sent_ts =
      ctrl1.last_alert_sent_ts := by
  simp only [verificarDegeloFim]
  split_ifs <;> rfl

theorem verificarDegelo_lastSent (isUltra : Bool) (now : ℤ) (val : ℚ)
    (stats : IAStats) (ctrl : Ctrl) :
    (verificarDegelo isUltra now val stats ctrl).last_alert_sent_ts =
      ctrl.last_alert_sent_ts := by
  unfold verificarDegelo
  rw [verificarDegeloFim_lastSent, verificarDegeloInicio_lastSent]

theorem verificarPorta_lastSent (isUltra : Bool) (limMin limMax : ℚ) (now : ℤ)
    (val : ℚ) (stats : IAStats) (ctrl : Ctrl) :
    (verificarPorta isUltra limMin limMax now val stats ctrl).1.last_alert_sent_ts =
      ctrl.last_alert_sent_ts := by
  simp only [verificarPorta]
  split_ifs <;> rfl

theorem verificarPorta_isDefrosting (isUltra : Bool) (limMin limMax : ℚ) (now : ℤ)
    (val : ℚ) (stats : IAStats) (ctrl : Ctrl) :
    (verificarPorta isUltra limMin limMax now val stats ctrl).1.is_defrosting =
      ctrl.is_defrosting := by
  simp only [verificarPorta]
  split_ifs <;> rfl

theorem verificarPorta_exclusion (isUltra : Bool) (limMin limMax : ℚ) (now : ℤ)
    (val : ℚ) (stats : IAStats) (ctrl : Ctrl) (h : ctrl.is_defrosting = true) :
    (verificarPorta isUltra limMin limMax now val stats ctrl).1.last_virtual_state = false := by
  simp only [verificarPorta, verificarPortaEstado, h]
  rfl

theorem vsPorta_lastSent (config : Config) (leitura : Leitura) (now : ℤ)
    (isAltoFluxo : Bool) (ctrl0 : Option Ctrl) (history0 : List Sample) (stats : IAStats) :
    (vsPorta config leitura now isAltoFluxo ctrl0 history0 stats).1.last_alert_sent_ts =
      (ctrl0.getD {}).last_alert_sent_ts := by
  unfold vsPorta vsCtrl1
  split_ifs with h
  · rw [verificarPorta_lastSent, verificarDegelo_lastSent]
  · rfl

theorem processarWatchlist_msgNone (now : ℤ) (prio0 : Prioridade) (desvio : Bool)
    (prev : Option Previsao) (ctrl : Ctrl) (watch : Option WatchEntry) :
    processarWatchlist now none prio0 desvio prev ctrl watch = (ctrl, none, none) := rfl

theorem processarWatchlist_first (now : ℤ) (m : Problema) (prio0 : Prioridade)
    (desvio : Bool) (prev : Option Previsao) (ctrl : Ctrl) :
    processarWatchlist now (some m) prio0 desvio prev ctrl none =
      (ctrl, some ⟨now, m⟩, none) := rfl

theorem processarWatchlist_emit (now : ℤ) (msgP : Option Problema) (prio0 : Prioridade)
    (desvio : Bool) (prev : Option Previsao) (ctrl : Ctrl) (watch : Option WatchEntry)
    (a : Alerta)
    (h : (processarWatchlist now msgP prio0 desvio prev ctrl watch).2.2 = some a) :
    msgP = some a.mensagem ∧ a.ts = now ∧
    (processarWatchlist now msgP prio0 desvio prev ctrl watch).1 =
      { ctrl with last_alert_sent_ts := some now } ∧
    cooldownEnvioMs a.prioridade < now - jsOrZ ctrl.last_alert_sent_ts 0 ∧
    ∃ entry, watch = some entry ∧
      soakNecessarioMs a.prioridade ≤ now - entry.first_seen := by
  cases msgP with
  | none => simp [processarWatchlist] at h
  | some m =>
    cases watch with
    | none => simp [processarWatchlist] at h
    | some entry =>
      simp only [processarWatchlist] at h ⊢
      by_cases h1 : now - entry.first_seen < soakNecessarioMs prio0
      · rw [if_pos h1] at h
        simp at h
      · rw [if_neg h1] at h ⊢
        by_cases h2 : (decide (CALL_PERSISTENCE_MS < now - entry.first_seen) && desvio) = true
        · rw [if_pos h2] at h ⊢
          by_cases h3 : cooldownEnvioMs Prioridade.CRITICA <
              now - jsOrZ ctrl.last_alert_sent_ts 0
          · rw [if_pos h3] at h ⊢
            have ha : (⟨Prioridade.CRITICA, m, now, prev⟩ : Alerta) = a := by
              simpa using h
            subst ha
            refine ⟨rfl, rfl, rfl, h3, entry, rfl, ?_⟩
            have h2' : CALL_PERSISTENCE_MS < now - entry.first_seen := by
              simpa using (Bool.and_eq_true_iff.mp h2).1
            unfold soakNecessarioMs ALERT_SOAK_TIME_MS CALL_PERSISTENCE_MS at *
            simp only [if_neg (by decide : ¬(Prioridade.CRITICA = Prioridade.PREDITIVA))]
            omega
          · rw [if_neg h3] at h
            simp at h
        · rw [if_neg h2] at h ⊢
          by_cases h3 : cooldownEnvioMs prio0 < now - jsOrZ ctrl.last_alert_sent_ts 0
          · rw [if_pos h3] at h ⊢
            have ha : (⟨prio0, m, now, prev⟩ : Alerta) = a := by
              simpa using h
            subst ha
            refine ⟨rfl, rfl, rfl, h3, entry, rfl, ?_⟩
            show soakNecessarioMs prio0 ≤ now - entry.first_seen
            omega
          · rw [if_neg h3] at h
            simp at h

theorem processarWatchlist_noemit (now : ℤ) (msgP : Option Problema) (prio0 : Prioridade)
    (desvio : Bool) (prev : Option Previsao) (ctrl : Ctrl) (watch : Option WatchEntry)
    (h : (processarWatchlist now msgP prio0 desvio prev ctrl watch).2.2 = none) :
    (processarWatchlist now msgP prio0 desvio prev ctrl watch).1 = ctrl := by
  cases msgP with
  | none => rfl
  | some m =>
    cases watch with
    | none => rfl
    | some entry =>
      simp only [processarWatchlist] at h ⊢
      by_cases h1 : now - entry.first_seen < soakNecessarioMs prio0
      · rw [if_pos h1]
      · rw [if_neg h1] at h ⊢
        by_cases h2 : (decide (CALL_PERSISTENCE_MS < now - entry.first_seen) && desvio) = true
        · rw [if_pos h2] at h ⊢
          by_cases h3 : cooldownEnvioMs Prioridade.CRITICA <
              now - jsOrZ ctrl.last_alert_sent_ts 0
          · rw [if_pos h3] at h
            simp at h
          · rw [if_neg h3]
        · rw [if_neg h2] at h ⊢
          by_cases h3 : cooldownEnvioMs prio0 < now - jsOrZ ctrl.last_alert_sent_ts 0
          · rw [if_pos h3] at h
            simp at h
          · rw [if_neg h3]

theorem jsOrZ_some_zero (v : ℤ) : jsOrZ (some v) 0 = v := by
  show (if v = 0 then 0 else v) = v
  split_ifs with h
  · omega
  · rfl

theorem processarWatchlist_flags (now : ℤ) (msgP : Option Problema) (prio0 : Prioridade)
    (desvio : Bool) (prev : Option Previsao) (ctrl : Ctrl) (watch : Option WatchEntry) :
    (processarWatchlist now msgP prio0 desvio prev ctrl watch).1.is_defrosting =
      ctrl.is_defrosting ∧
    (processarWatchlist now msgP prio0 desvio prev ctrl watch).1.last_virtual_state =
      ctrl.last_virtual_state := by
  unfold processarWatchlist
  cases msgP with
  | none => exact ⟨rfl, rfl⟩
  | some m =>
    cases watch with
    | none => exact ⟨rfl, rfl⟩
    | some entry =>
      simp only
      split_ifs <;> exact ⟨rfl, rfl⟩

theorem avaliarProblemaTemp_watch (isUltra : Bool) (limMin limMax val : ℚ)
    (stats : IAStats) (ctrl : Ctrl) (watch : Option WatchEntry) :
    (avaliarProblemaTemp isUltra limMin limMax val stats ctrl watch).watch = watch ∨
    ((avaliarProblemaTemp isUltra limMin limMax val stats ctrl watch).mensagem = none ∧
     (avaliarProblemaTemp isUltra limMin limMax val stats ctrl watch).watch = none) := by
  simp only [avaliarProblemaTemp]
  split_ifs <;> simp

theorem avaliarProblemaTemp_defrost_kinds (isUltra : Bool) (limMin limMax val : ℚ)
    (stats : IAStats) (ctrl : Ctrl) (watch : Option WatchEntry)
    (h : ctrl.is_defrosting = true) :
    ((avaliarProblemaTemp isUltra limMin limMax val stats ctrl watch).mensagem = none ∧
     (avaliarProblemaTemp isUltra limMin limMax val stats ctrl watch).watch = none) ∨
    ((avaliarProblemaTemp isUltra limMin limMax val stats ctrl watch).mensagem =
        some Problema.degeloAnormal ∧
      limMax + (if isUltra then (25 : ℚ) else 15) + 5 < val) ∨
    ((avaliarProblemaTemp isUltra limMin limMax val stats ctrl watch).mensagem =
        some Problema.tempExtremaDegelo ∧
      val < limMin - 5) := by
  simp only [avaliarProblemaTemp, h, if_true]
  by_cases h1 : limMax + (if isUltra then (25 : ℚ) else 15) + 5 < val
  · rw [if_pos h1]
    exact Or.inr (Or.inl ⟨rfl, h1⟩)
  · rw [if_neg h1]
    by_cases h2 : val < limMin - 5
    · rw [if_pos h2]
      exact Or.inr (Or.inr ⟨rfl, h2⟩)
    · rw [if_neg h2]
      exact Or.inl ⟨rfl, rfl⟩

theorem avaliarProblemaTemp_suppress (isUltra : Bool) (limMin limMax val : ℚ)
    (stats : IAStats) (ctrl : Ctrl) (watch : Option WatchEntry)
    (h : ctrl.is_defrosting = true)
    (h1 : ¬(limMax + (if isUltra then (25 : ℚ) else 15) + 5 < val))
    (h2 : ¬(val < limMin - 5)) :
    avaliarProblemaTemp isUltra limMin limMax val stats ctrl watch =
      ⟨none, .ALTA, false, none, none⟩ := by
  simp only [avaliarProblemaTemp, h, if_true]
  rw [if_neg h1, if_neg h2]

theorem avaliarUmidade_kinds (humidity hum_max hum_min : Option ℚ) :
    avaliarUmidade humidity hum_max hum_min = none ∨
    avaliarUmidade humidity hum_max hum_min = some Problema.umidAlta ∨
    avaliarUmidade humidity hum_max hum_min = some Problema.umidBaixa := by
  unfold avaliarUmidade
  cases humidity with
  | none => simp
  | some v =>
    simp only
    split_ifs <;> simp

theorem vsPe_watch (config : Config) (leitura : Leitura) (now : ℤ) (isAltoFluxo : Bool)
    (ctrl0 : Option Ctrl) (watch0 : Option WatchEntry) (history0 : List Sample)
    (stats : IAStats) :
    (vsPe config leitura now isAltoFluxo ctrl0 watch0 history0 stats).watch = watch0 ∨
    ((vsPe config leitura now isAltoFluxo ctrl0 watch0 history0 stats).mensagem = none ∧
     (vsPe config leitura now isAltoFluxo ctrl0 watch0 history0 stats).watch = none) := by
  unfold vsPe
  split_ifs with h
  · exact avaliarProblemaTemp_watch _ _ _ _ _ _ _
  · exact Or.inl rfl

theorem vsPorta_isDefrosting (config : Config) (leitura : Leitura) (now : ℤ)
    (isAltoFluxo : Bool) (ctrl0 : Option Ctrl) (history0 : List Sample) (stats : IAStats) :
    (vsPorta config leitura now isAltoFluxo ctrl0 history0 stats).1.is_defrosting =
      (vsCtrl1 config leitura now ctrl0 history0 stats).is_defrosting := by
  unfold vsPorta
  split_ifs with h
  · rw [verificarPorta_isDefrosting]
  · rfl

theorem verificarSensor_alerta (config : Config) (leitura : Leitura) (now : ℤ)
    (isAltoFluxo : Bool) (ctrl0 : Option Ctrl) (watch0 : Option WatchEntry)
    (history0 : List Sample) (stats : IAStats) (hm : config.em_manutencao = false) :
    (verificarSensor config leitura now isAltoFluxo ctrl0 watch0 history0 stats).alerta =
      (vsWres config leitura now isAltoFluxo ctrl0 watch0 history0 stats).2.2 := by
  simp [verificarSensor, hm]

theorem verificarSensor_watch (config : Config) (leitura : Leitura) (now : ℤ)
    (isAltoFluxo : Bool) (ctrl0 : Option Ctrl) (watch0 : Option WatchEntry)
    (history0 : List Sample) (stats : IAStats) (hm : config.em_manutencao = false) :
    (verificarSensor config leitura now isAltoFluxo ctrl0 watch0 history0 stats).watch =
      (vsWres config leitura now isAltoFluxo ctrl0 watch0 history0 stats).2.1 := by
  simp [verificarSensor, hm]

theorem verificarSensor_ctrl (config : Config) (leitura : Leitura) (now : ℤ)
    (isAltoFluxo : Bool) (ctrl0 : Option Ctrl) (watch0 : Option WatchEntry)
    (history0 : List Sample) (stats : IAStats) (hm : config.em_manutencao = false) :
    (verificarSensor config leitura now isAltoFluxo ctrl0 watch0 history0 stats).ctrl =
      (if ctrl0.isSome || vsReady now leitura history0 ||
          (vsWres config leitura now isAltoFluxo ctrl0 watch0 history0 stats).2.2.isSome then
        some (vsWres config leitura now isAltoFluxo ctrl0 watch0 history0 stats).1
      else none) := by
  simp [verificarSensor, hm]

theorem vsWres_eq (config : Config) (leitura : Leitura) (now : ℤ) (isAltoFluxo : Bool)
    (ctrl0 : Option Ctrl) (watch0 : Option WatchEntry) (history0 : List Sample)
    (stats : IAStats) :
    vsWres config leitura now isAltoFluxo ctrl0 watch0 history0 stats =
      processarWatchlist now (vsMsg config leitura now isAltoFluxo ctrl0 watch0 history0 stats)
        (vsPe config leitura now isAltoFluxo ctrl0 watch0 history0 stats).prioridade
        (vsPe config leitura now isAltoFluxo ctrl0 watch0 history0 stats).desvioExtremo
        (vsPe config leitura now isAltoFluxo ctrl0 watch0 history0 stats).previsao
        (vsPorta config leitura now isAltoFluxo ctrl0 history0 stats).1
        (vsPe config leitura now isAltoFluxo ctrl0 watch0 history0 stats).watch := rfl

theorem em_manutencao_false_of_not (config : Config) (hm : ¬config.em_manutencao = true) :
    config.em_manutencao = false := by
  cases h : config.em_manutencao
  · rfl
  · exact absurd h hm

/-- C2 (amended): every alert emitted by `verificarSensor` is emitted at
the instant of the call, and at that moment the watchlist holds an
entry for the sensor — the watchlist is keyed by sensor MAC only, so
the entry's recorded problem kind may differ from the emitted alert's —
whose `first_seen` is at least `soak(priority)` in the past (10 min,
halved for `PREDITIVA`); and when the sensor is not on the watchlist
the call never emits: it at most creates a fresh entry
(`first_seen = now`). -/
theorem alert_soak_confirmation (config : Config) (leitura : Leitura) (now : ℤ)
    (isAltoFluxo : Bool) (ctrl0 : Option Ctrl) (watch0 : Option WatchEntry)
    (history0 : List Sample) (stats : IAStats) :
    (∀ a, (verificarSensor config leitura now isAltoFluxo ctrl0 watch0 history0 stats).alerta =
        some a →
      a.ts = now ∧ ∃ entry, watch0 = some entry ∧
        entry.first_seen + soakNecessarioMs a.prioridade ≤ now) ∧
    (watch0 = none →
      (verificarSensor config leitura now isAltoFluxo ctrl0 watch0 history0 stats).alerta =
        none ∧
      ((verificarSensor config leitura now isAltoFluxo ctrl0 watch0 history0 stats).watch =
          none ∨
        ∃ m, (verificarSensor config leitura now isAltoFluxo ctrl0 watch0 history0
          stats).watch = some ⟨now, m⟩)) := by
  by_cases hm : config.em_manutencao = true
  · constructor
    · intro a ha
      simp [verificarSensor, hm] at ha
    · intro _
      constructor
      · simp [verificarSensor, hm]
      · left
        simp [verificarSensor, hm]
  · have hm' := em_manutencao_false_of_not config hm
    constructor
    · intro a ha
      rw [verificarSensor_alerta _ _ _ _ _ _ _ _ hm', vsWres_eq] at ha
      obtain ⟨hmsg, hts, hctrl, hcool, entry, hwatch, hsoak⟩ :=
        processarWatchlist_emit _ _ _ _ _ _ _ _ ha
      refine ⟨hts, ?_⟩
      rcases vsPe_watch config leitura now isAltoFluxo ctrl0 watch0 history0 stats with
        hpe | hpe
      · rw [hpe] at hwatch
        exact ⟨entry, hwatch, by omega⟩
      · rw [hpe.2] at hwatch
        simp at hwatch
    · intro hw
      subst hw
      have hpw : (vsPe config leitura now isAltoFluxo ctrl0 none history0 stats).watch =
          none := by
        rcases vsPe_watch config leitura now isAltoFluxo ctrl0 none history0 stats with
          hpe | hpe
        · exact hpe
        · exact hpe.2
      rw [verificarSensor_alerta _ _ _ _ _ _ _ _ hm',
        verificarSensor_watch _ _ _ _ _ _ _ _ hm', vsWres_eq, hpw]
      cases hmsg : vsMsg config leitura now isAltoFluxo ctrl0 none history0 stats with
      | none =>
        rw [processarWatchlist_msgNone]
        exact ⟨rfl, Or.inl rfl⟩
      | some m =>
        rw [processarWatchlist_first]
        exact ⟨rfl, Or.inr ⟨m, rfl⟩⟩

/-- Witness for C2: a concrete humidity alert on a matured watchlist
entry. -/
theorem alert_soak_confirmation_witness :
    (verificarSensor ⟨none, none, some 60, none, false⟩ ⟨-18, some 80⟩ 10000000 false none
        (some ⟨9400000, Problema.umidAlta⟩) [] ⟨0, 0, 0, 0, 0, 0, none, none, none⟩).alerta =
      some ⟨Prioridade.ALTA, Problema.umidAlta, 10000000, none⟩ ∧
    ((⟨Prioridade.ALTA, Problema.umidAlta, 10000000, none⟩ : Alerta).ts = 10000000 ∧
      ∃ entry, (some ⟨9400000, Problema.umidAlta⟩ : Option WatchEntry) = some entry ∧
        entry.first_seen + soakNecessarioMs
          (⟨Prioridade.ALTA, Problema.umidAlta, 10000000, none⟩ : Alerta).prioridade ≤
          10000000) := by
  constructor
  · decide
  · exact (alert_soak_confirmation ⟨none, none, some 60, none, false⟩ ⟨-18, some 80⟩ 10000000
      false none (some ⟨9400000, Problema.umidAlta⟩) [] ⟨0, 0, 0, 0, 0, 0, none, none, none⟩).1
      _ (by decide)

/-- C8: when the rolling window (after this sample's append) holds fewer
than `MIN_DATA_POINTS` samples the analyzer is not ready, the whole
threshold block is skipped, and any alert this reading can produce is a
humidity alert — never a hard-limit or predictive temperature alert,
however far the temperature is out of bounds. -/
theorem not_ready_no_temperature_alert (config : Config) (leitura : Leitura) (now : ℤ)
    (isAltoFluxo : Bool) (ctrl0 : Option Ctrl) (watch0 : Option WatchEntry)
    (history0 : List Sample) (stats : IAStats)
    (hlen : (windowAppend now leitura.temp history0).length < MIN_DATA_POINTS) :
    ∀ a, (verificarSensor config leitura now isAltoFluxo ctrl0 watch0 history0 stats).alerta =
        some a →
      a.mensagem = Problema.umidAlta ∨ a.mensagem = Problema.umidBaixa := by
  intro a ha
  by_cases hm : config.em_manutencao = true
  · simp [verificarSensor, hm] at ha
  · have hm' := em_manutencao_false_of_not config hm
    rw [verificarSensor_alerta _ _ _ _ _ _ _ _ hm', vsWres_eq] at ha
    obtain ⟨hmsg, -, -, -, -, -, -⟩ := processarWatchlist_emit _ _ _ _ _ _ _ _ ha
    have hready : vsReady now leitura history0 = false := by
      unfold vsReady
      rw [decide_eq_false_iff_not]
      omega
    have hpe : vsPe config leitura now isAltoFluxo ctrl0 watch0 history0 stats =
        ⟨none, .ALTA, false, none, watch0⟩ := by
      unfold vsPe
      rw [hready]
      simp
    have hmsg_eq : vsMsg config leitura now isAltoFluxo ctrl0 watch0 history0 stats =
        avaliarUmidade leitura.humidity config.hum_max config.hum_min := by
      unfold vsMsg
      rw [hpe]
    rw [hmsg_eq] at hmsg
    rcases avaliarUmidade_kinds leitura.humidity config.hum_max config.hum_min with
      h0 | h0 | h0 <;> rw [h0] at hmsg
    · simp at hmsg
    · exact Or.inl (Option.some.inj hmsg).symm
    · exact Or.inr (Option.some.inj hmsg).symm

/-- Witness for C8: an empty history (1-sample window after append),
a temperature of −50 °C far below every bound, and yet the emitted
alert is the humidity one. -/
theorem not_ready_no_temperature_alert_witness :
    (⟨Prioridade.ALTA, Problema.umidAlta, 10000000, none⟩ : Alerta).mensagem =
        Problema.umidAlta ∨
      (⟨Prioridade.ALTA, Problema.umidAlta, 10000000, none⟩ : Alerta).mensagem =
        Problema.umidBaixa :=
  not_ready_no_temperature_alert ⟨none, none, some 60, none, false⟩ ⟨-50, some 80⟩ 10000000
    false none (some ⟨9400000, Problema.umidAlta⟩) [] ⟨0, 0, 0, 0, 0, 0, none, none, none⟩
    (by decide) _ (by decide)

/-- C1 (amended): when the analyzer is ready and the control state
*after this sample's defrost detection* has `is_defrosting`, a
temperature alert can be emitted only for anomalously extreme values
(`temp > LIMIT_TEMP_MAX + tolerance + 5` with tolerance 25 for ULTRA
and 15 for NORMAL, or `temp < LIMIT_TEMP_MIN − 5`); for any temperature
inside those bounds no alert at all is produced and the pre-existing
watchlist entry is dropped (at most a fresh humidity entry with
`first_seen = now` replaces it).  When the analyzer is not ready the
suppression does not run (see the counterexample). -/
theorem defrost_alert_suppression (config : Config) (leitura : Leitura) (now : ℤ)
    (isAltoFluxo : Bool) (ctrl0 : Option Ctrl) (watch0 : Option WatchEntry)
    (history0 : List Sample) (stats : IAStats)
    (hm : config.em_manutencao = false)
    (hready : vsReady now leitura history0 = true)
    (hdef : (vsCtrl1 config leitura now ctrl0 history0 stats).is_defrosting = true) :
    (∀ a, (verificarSensor config leitura now isAltoFluxo ctrl0 watch0 history0
        stats).alerta = some a →
      a.mensagem ≠ Problema.umidAlta → a.mensagem ≠ Problema.umidBaixa →
      (limitTempMax config isAltoFluxo + (if isUltraOf config then (25 : ℚ) else 15) + 5 <
          leitura.temp ∨
        leitura.temp < limitTempMin config - 5)) ∧
    ((leitura.temp ≤ limitTempMax config isAltoFluxo +
        (if isUltraOf config then (25 : ℚ) else 15) + 5 ∧
      limitTempMin config - 5 ≤ leitura.temp) →
      (verificarSensor config leitura now isAltoFluxo ctrl0 watch0 history0 stats).alerta =
        none ∧
      ((verificarSensor config leitura now isAltoFluxo ctrl0 watch0 history0 stats).watch =
          none ∨
        ∃ m, (verificarSensor config leitura now isAltoFluxo ctrl0 watch0 history0
            stats).watch = some ⟨now, m⟩ ∧
          (m = Problema.umidAlta ∨ m = Problema.umidBaixa))) := by
  have hdef2 : (vsPorta config leitura now isAltoFluxo ctrl0 history0
      stats).1.is_defrosting = true := by
    rw [vsPorta_isDefrosting]
    exact hdef
  have hpe_eq : vsPe config leitura now isAltoFluxo ctrl0 watch0 history0 stats =
      avaliarProblemaTemp (isUltraOf config) (limitTempMin config)
        (limitTempMax config isAltoFluxo) leitura.temp stats
        (vsPorta config leitura now isAltoFluxo ctrl0 history0 stats).1 watch0 := by
    unfold vsPe
    rw [hready]
    simp
  constructor
  · intro a ha hna hnb
    rw [verificarSensor_alerta _ _ _ _ _ _ _ _ hm, vsWres_eq] at ha
    obtain ⟨hmsg, -, -, -, -, -, -⟩ := processarWatchlist_emit _ _ _ _ _ _ _ _ ha
    rcases avaliarProblemaTemp_defrost_kinds (isUltraOf config) (limitTempMin config)
        (limitTempMax config isAltoFluxo) leitura.temp stats
        (vsPorta config leitura now isAltoFluxo ctrl0 history0 stats).1 watch0 hdef2 with
      ⟨hk, -⟩ | ⟨hk, hb⟩ | ⟨hk, hb⟩
    · have hmsg_eq : vsMsg config leitura now isAltoFluxo ctrl0 watch0 history0 stats =
          avaliarUmidade leitura.humidity config.hum_max config.hum_min := by
        unfold vsMsg
        rw [hpe_eq, hk]
      rw [hmsg_eq] at hmsg
      rcases avaliarUmidade_kinds leitura.humidity config.hum_max config.hum_min with
        h0 | h0 | h0 <;> rw [h0] at hmsg
      · simp at hmsg
      · exact absurd (Option.some.inj hmsg).symm hna
      · exact absurd (Option.some.inj hmsg).symm hnb
    · exact Or.inl hb
    · exact Or.inr hb
  · rintro ⟨hb1, hb2⟩
    have hsup := avaliarProblemaTemp_suppress (isUltraOf config) (limitTempMin config)
      (limitTempMax config isAltoFluxo) leitura.temp stats
      (vsPorta config leitura now isAltoFluxo ctrl0 history0 stats).1 watch0 hdef2
      (not_lt.mpr hb1) (not_lt.mpr hb2)
    have hpe2 : vsPe config leitura now isAltoFluxo ctrl0 watch0 history0 stats =
        ⟨none, .ALTA, false, none, none⟩ := by
      rw [hpe_eq, hsup]
    have hmsg_eq : vsMsg config leitura now isAltoFluxo ctrl0 watch0 history0 stats =
        avaliarUmidade leitura.humidity config.hum_max config.hum_min := by
      unfold vsMsg
      rw [hpe2]
    rw [verificarSensor_alerta _ _ _ _ _ _ _ _ hm,
      verificarSensor_watch _ _ _ _ _ _ _ _ hm, vsWres_eq, hpe2, hmsg_eq]
    rcases avaliarUmidade_kinds leitura.humidity config.hum_max config.hum_min with
      h0 | h0 | h0 <;> rw [h0]
    · rw [processarWatchlist_msgNone]
      exact ⟨rfl, Or.inl rfl⟩
    · rw [processarWatchlist_first]
      exact ⟨rfl, Or.inr ⟨Problema.umidAlta, rfl, Or.inl rfl⟩⟩
    · rw [processarWatchlist_first]
      exact ⟨rfl, Or.inr ⟨Problema.umidBaixa, rfl, Or.inr rfl⟩⟩

/-- Witness for C1: a ready window (11 samples), a control state in
defrost, a temperature inside the tolerated band: no alert, and the
stale watchlist entry is dropped. -/
theorem defrost_alert_suppression_witness :
    (verificarSensor ⟨none, none, none, none, false⟩ ⟨-18, none⟩ 100000 false
        (some { is_defrosting := true, defrost_just_started := true })
        (some ⟨0, Problema.tempAlta⟩)
        [⟨0, -18⟩, ⟨10000, -18⟩, ⟨20000, -18⟩, ⟨30000, -18⟩, ⟨40000, -18⟩, ⟨50000, -18⟩,
         ⟨60000, -18⟩, ⟨70000, -18⟩, ⟨80000, -18⟩, ⟨90000, -18⟩]
        ⟨0, 0, 0, 0, 0, 0, none, none, none⟩).alerta = none ∧
    ((verificarSensor ⟨none, none, none, none, false⟩ ⟨-18, none⟩ 100000 false
        (some { is_defrosting := true, defrost_just_started := true })
        (some ⟨0, Problema.tempAlta⟩)
        [⟨0, -18⟩, ⟨10000, -18⟩, ⟨20000, -18⟩, ⟨30000, -18⟩, ⟨40000, -18⟩, ⟨50000, -18⟩,
         ⟨60000, -18⟩, ⟨70000, -18⟩, ⟨80000, -18⟩, ⟨90000, -18⟩]
        ⟨0, 0, 0, 0, 0, 0, none, none, none⟩).watch = none ∨
      ∃ m, (verificarSensor ⟨none, none, none, none, false⟩ ⟨-18, none⟩ 100000 false
        (some { is_defrosting := true, defrost_just_started := true })
        (some ⟨0, Problema.tempAlta⟩)
        [⟨0, -18⟩, ⟨10000, -18⟩, ⟨20000, -18⟩, ⟨30000, -18⟩, ⟨40000, -18⟩, ⟨50000, -18⟩,
         ⟨60000, -18⟩, ⟨70000, -18⟩, ⟨80000, -18⟩, ⟨90000, -18⟩]
        ⟨0, 0, 0, 0, 0, 0, none, none, none⟩).watch = some ⟨100000, m⟩ ∧
        (m = Problema.umidAlta ∨ m = Problema.umidBaixa)) :=
  (defrost_alert_suppression ⟨none, none, none, none, false⟩ ⟨-18, none⟩ 100000 false
    (some { is_defrosting := true, defrost_just_started := true })
    (some ⟨0, Problema.tempAlta⟩)
    [⟨0, -18⟩, ⟨10000, -18⟩, ⟨20000, -18⟩, ⟨30000, -18⟩, ⟨40000, -18⟩, ⟨50000, -18⟩,
     ⟨60000, -18⟩, ⟨70000, -18⟩, ⟨80000, -18⟩, ⟨90000, -18⟩]
    ⟨0, 0, 0, 0, 0, 0, none, none, none⟩ rfl (by decide) (by decide)).2
    (by constructor <;>
      norm_num [limitTempMax, limitTempMin, isUltraOf, ENV_TEMP_MAX_NORMAL,
        ENV_TEMP_MIN_GLOBAL])

/-- C1 counterexample, refuting the claim as frozen: with the sensor in
defrost (`is_defrosting` true before and after the call) but the
analyzer not ready (empty window), a reading whose temperature −18 °C
is well inside the extreme bounds still produces an alert (a humidity
alert on a matured entry) and the pre-existing watchlist entry is kept,
because the defrost-suppression block only runs when the analyzer is
ready. -/
theorem defrost_alert_suppression_counterexample :
    ((verificarSensor ⟨none, none, some 60, none, false⟩ ⟨-18, some 80⟩ 10000000 false
        (some { is_defrosting := true }) (some ⟨9400000, Problema.umidAlta⟩) []
        ⟨0, 0, 0, 0, 0, 0, none, none, none⟩).alerta =
      some ⟨Prioridade.ALTA, Problema.umidAlta, 10000000, none⟩) ∧
    ((verificarSensor ⟨none, none, some 60, none, false⟩ ⟨-18, some 80⟩ 10000000 false
        (some { is_defrosting := true }) (some ⟨9400000, Problema.umidAlta⟩) []
        ⟨0, 0, 0, 0, 0, 0, none, none, none⟩).watch =
      some ⟨9400000, Problema.umidAlta⟩) ∧
    (Ctrl.is_defrosting { is_defrosting := true } = true) ∧
    ((-18 : ℚ) ≤ limitTempMax ⟨none, none, some 60, none, false⟩ false + 15 + 5 ∧
      limitTempMin ⟨none, none, some 60, none, false⟩ - 5 ≤ (-18 : ℚ)) := by
  refine ⟨?_, ?_, rfl, ?_⟩
  · decide
  · decide
  · constructor <;>
      norm_num [limitTempMax, limitTempMin, ENV_TEMP_MAX_NORMAL, ENV_TEMP_MIN_GLOBAL]

theorem verificarSensor_mutex (config : Config) (leitura : Leitura) (now : ℤ)
    (isAltoFluxo : Bool) (ctrl0 : Option Ctrl) (watch0 : Option WatchEntry)
    (history0 : List Sample) (stats : IAStats)
    (hpre : ∀ c0, ctrl0 = some c0 → c0.is_defrosting = true →
      c0.last_virtual_state = false) :
    ∀ c, (verificarSensor config leitura now isAltoFluxo ctrl0 watch0 history0 stats).ctrl =
        some c → c.is_defrosting = true → c.last_virtual_state = false := by
  intro c hc hd
  by_cases hm : config.em_manutencao = true
  · simp [verificarSensor, hm] at hc
  · have hm' := em_manutencao_false_of_not config hm
    rw [verificarSensor_ctrl _ _ _ _ _ _ _ _ hm'] at hc
    by_cases hcond : (ctrl0.isSome || vsReady now leitura history0 ||
        (vsWres config leitura now isAltoFluxo ctrl0 watch0 history0 stats).2.2.isSome) =
        true
    · rw [if_pos hcond] at hc
      obtain rfl : (vsWres config leitura now isAltoFluxo ctrl0 watch0 history0 stats).1 =
          c := Option.some.inj hc
      have hflags := processarWatchlist_flags now
        (vsMsg config leitura now isAltoFluxo ctrl0 watch0 history0 stats)
        (vsPe config leitura now isAltoFluxo ctrl0 watch0 history0 stats).prioridade
        (vsPe config leitura now isAltoFluxo ctrl0 watch0 history0 stats).desvioExtremo
        (vsPe config leitura now isAltoFluxo ctrl0 watch0 history0 stats).previsao
        (vsPorta config leitura now isAltoFluxo ctrl0 history0 stats).1
        (vsPe config leitura now isAltoFluxo ctrl0 watch0 history0 stats).watch
      rw [vsWres_eq] at hd ⊢
      rw [hflags.1] at hd
      rw [hflags.2]
      by_cases hready : vsReady now leitura history0 = true
      · have hvp : (vsPorta config leitura now isAltoFluxo ctrl0 history0 stats).1 =
            (verificarPorta (isUltraOf config) (limitTempMin config)
              (limitTempMax config isAltoFluxo) now leitura.temp stats
              (vsCtrl1 config leitura now ctrl0 history0 stats)).1 := by
          unfold vsPorta
          rw [hready]
          simp
        rw [hvp] at hd ⊢
        rw [verificarPorta_isDefrosting] at hd
        exact verificarPorta_exclusion _ _ _ _ _ _ _ hd
      · have hready' : vsReady now leitura history0 = false := by
          cases h2 : vsReady now leitura history0
          · rfl
          · exact absurd h2 hready
        have hvp : (vsPorta config leitura now isAltoFluxo ctrl0 history0 stats).1 =
            ctrl0.getD {} := by
          unfold vsPorta vsCtrl1
          rw [hready']
          simp
        rw [hvp] at hd ⊢
        cases ctrl0 with
        | none => simp at hd
        | some c0 => exact hpre c0 rfl hd
    · rw [if_neg hcond] at hc
      simp at hc

theorem runTraceAux_mutex (config : Config) :
    ∀ (inputs : List StepInput) (acc : FullState × List Alerta),
      (∀ c0, acc.1.sensor.ctrl = some c0 → c0.is_defrosting = true →
        c0.last_virtual_state = false) →
      ∀ c, (runTraceAux config inputs acc).1.sensor.ctrl = some c →
        c.is_defrosting = true → c.last_virtual_state = false := by
  intro inputs
  induction inputs with
  | nil =>
    intro acc h c hc hd
    exact h c hc hd
  | cons inp rest ih =>
    intro acc h
    rw [show runTraceAux config (inp :: rest) acc =
      runTraceAux config rest ((stepFull config acc.1 inp).1,
        acc.2 ++ (stepFull config acc.1 inp).2.toList) from rfl]
    apply ih
    intro c0 hc0 hd0
    have hvs : (verificarSensor config inp.leitura inp.now inp.isAltoFluxo
        acc.1.sensor.ctrl acc.1.sensor.watch acc.1.sensor.history inp.stats).ctrl =
        some c0 := hc0
    exact verificarSensor_mutex config inp.leitura inp.now inp.isAltoFluxo
      acc.1.sensor.ctrl acc.1.sensor.watch acc.1.sensor.history inp.stats h c0 hvs hd0

/-- C4: starting from the empty state, after any sequence of processed
readings the per-sensor control state never has `is_defrosting` and
`last_virtual_state` simultaneously true: whenever `is_defrosting`
holds, the door state was forced to closed before being committed. -/
theorem defrost_door_mutual_exclusion (config : Config) (inputs : List StepInput) :
    ∀ c, (runTrace config inputs).1.sensor.ctrl = some c →
      c.is_defrosting = true → c.last_virtual_state = false := by
  apply runTraceAux_mutex
  intro c0 hc0 _
  simp [FullState.sensor] at hc0

/-- A 10-reading trace whose oracle reports a stable linear rise from
the tenth sample on, so the last reading starts a defrost. -/
def traceC4 : List StepInput :=
  [⟨0, ⟨-18, none⟩, false, ⟨0.3, 0, 0, 0.1, 0.1, 0.9, none, none, none⟩⟩,
   ⟨10000, ⟨-18, none⟩, false, ⟨0.3, 0, 0, 0.1, 0.1, 0.9, none, none, none⟩⟩,
   ⟨20000, ⟨-18, none⟩, false, ⟨0.3, 0, 0, 0.1, 0.1, 0.9, none, none, none⟩⟩,
   ⟨30000, ⟨-18, none⟩, false, ⟨0.3, 0, 0, 0.1, 0.1, 0.9, none, none, none⟩⟩,
   ⟨40000, ⟨-18, none⟩, false, ⟨0.3, 0, 0, 0.1, 0.1, 0.9, none, none, none⟩⟩,
   ⟨50000, ⟨-18, none⟩, false, ⟨0.3, 0, 0, 0.1, 0.1, 0.9, none, none, none⟩⟩,
   ⟨60000, ⟨-18, none⟩, false, ⟨0.3, 0, 0, 0.1, 0.1, 0.9, none, none, none⟩⟩,
   ⟨70000, ⟨-18, none⟩, false, ⟨0.3, 0, 0, 0.1, 0.1, 0.9, none, none, none⟩⟩,
   ⟨80000, ⟨-18, none⟩, false, ⟨0.3, 0, 0, 0.1, 0.1, 0.9, none, none, none⟩⟩,
   ⟨90000, ⟨-18, none⟩, false, ⟨0.3, 0, 0, 0.1, 0.1, 0.9, none, none, none⟩⟩]

/-! ## C6 / C7: maintenance frame and deadband persistence -/

theorem persistirLeitura_iff (leitura : Leitura) (now : ℤ) (last : LastReading) :
    persistirLeitura leitura now last = true ↔
      (DB_MIN_VAR_TEMP ≤ |leitura.temp - last.db_temp| ∨
        (∃ h, last.db_hum = some h ∧ DB_MIN_VAR_HUM ≤ |leitura.humidity.getD 0 - h|) ∨
        DB_HEARTBEAT_MS < now - last.db_ts) := by
  unfold persistirLeitura
  cases hdb : last.db_hum with
  | none => simp
  | some h => simp [or_assoc]

theorem processarLeituraSensor_telemetry (config : Config) (leitura : Leitura) (now : ℤ)
    (isAltoFluxo : Bool) (stats : IAStats) (s : SensorState) (last0 : Option LastReading) :
    (processarLeituraSensor config leitura now isAltoFluxo stats s last0).telemetry =
      (if persistirLeitura leitura now (last0.getD {}) then
        some ⟨now, leitura.temp, leitura.humidity⟩
      else none) := by
  have hdef : (processarLeituraSensor config leitura now isAltoFluxo stats s last0).telemetry =
      (if persistirLeitura leitura now (last0.getD {}) then
        ((some ⟨now, leitura.temp, leitura.humidity⟩ : Option TelemetryRecord),
          { last0.getD {} with
            db_temp := leitura.temp
            db_hum := leitura.humidity
            db_ts := now })
      else ((none : Option TelemetryRecord), last0.getD {})).1 := rfl
  rw [hdef]
  cases hp : persistirLeitura leitura now (last0.getD {}) <;> simp

theorem processarLeituraSensor_last (config : Config) (leitura : Leitura) (now : ℤ)
    (isAltoFluxo : Bool) (stats : IAStats) (s : SensorState) (last0 : Option LastReading) :
    (processarLeituraSensor config leitura now isAltoFluxo stats s last0).last =
      (if persistirLeitura leitura now (last0.getD {}) then
        { last0.getD {} with
          ts := now
          db_temp := leitura.temp
          db_hum := leitura.humidity
          db_ts := now }
      else { last0.getD {} with ts := now }) := by
  have hdef : (processarLeituraSensor config leitura now isAltoFluxo stats s last0).last =
      { (if persistirLeitura leitura now (last0.getD {}) then
          ((some ⟨now, leitura.temp, leitura.humidity⟩ : Option TelemetryRecord),
            { last0.getD {} with
              db_temp := leitura.temp
              db_hum := leitura.humidity
              db_ts := now })
        else ((none : Option TelemetryRecord), last0.getD {})).2 with ts := now } := rfl
  rw [hdef]
  cases hp : persistirLeitura leitura now (last0.getD {}) <;> simp

/-- C6 (amended): when `em_manutencao` is true, `verificarSensor` returns
at line 638-642 after clearing the watchlist and alert-control entries:
no alert, no door event, history untouched.  The message handler,
however, is NOT short-circuited: the `lastReadings` timestamp is still
refreshed and a telemetry record is still persisted whenever the
deadband condition fires — the sensor is silenced for alerting, not
"entirely ignored". -/
theorem maintenance_frame (config : Config) (leitura : Leitura) (now : ℤ)
    (isAltoFluxo : Bool) (stats : IAStats) (s : SensorState) (last0 : Option LastReading)
    (hm : config.em_manutencao = true) :
    (processarLeituraSensor config leitura now isAltoFluxo stats s last0).alerta = none ∧
    (processarLeituraSensor config leitura now isAltoFluxo stats s last0).doorEvent = none ∧
    (processarLeituraSensor config leitura now isAltoFluxo stats s last0).state =
      ⟨none, none, s.history⟩ ∧
    (processarLeituraSensor config leitura now isAltoFluxo stats s last0).last.ts = now ∧
    (processarLeituraSensor config leitura now isAltoFluxo stats s last0).telemetry =
      (if persistirLeitura leitura now (last0.getD {}) then
        some ⟨now, leitura.temp, leitura.humidity⟩
      else none) := by
  have hvs : verificarSensor config leitura now isAltoFluxo s.ctrl s.watch s.history stats =
      ⟨none, none, none, none, s.history⟩ := by
    unfold verificarSensor
    rw [if_pos hm]
  have ha : (processarLeituraSensor config leitura now isAltoFluxo stats s last0).alerta =
      (verificarSensor config leitura now isAltoFluxo s.ctrl s.watch s.history stats).alerta :=
    rfl
  have hd : (processarLeituraSensor config leitura now isAltoFluxo stats s last0).doorEvent =
      (verificarSensor config leitura now isAltoFluxo s.ctrl s.watch s.history
        stats).doorEvent := rfl
  have hs : (processarLeituraSensor config leitura now isAltoFluxo stats s last0).state =
      ⟨(verificarSensor config leitura now isAltoFluxo s.ctrl s.watch s.history stats).ctrl,
        (verificarSensor config leitura now isAltoFluxo s.ctrl s.watch s.history stats).watch,
        (verificarSensor config leitura now isAltoFluxo s.ctrl s.watch s.history
          stats).history⟩ := rfl
  refine ⟨?_, ?_, ?_, ?_,
    processarLeituraSensor_telemetry config leitura now isAltoFluxo stats s last0⟩
  · rw [ha, hvs]
  · rw [hd, hvs]
  · rw [hs, hvs]
  · rw [processarLeituraSensor_last]
    split_ifs <;> rfl

/-- C7 (amended): a telemetry record is buffered iff the temperature
moved by at least `DB_MIN_VAR_TEMP`, or the stored humidity is a number
and the humidity moved by at least `DB_MIN_VAR_HUM`, or STRICTLY more
than `DB_HEARTBEAT_MS` elapsed since the last persisted record; on
persist the `db_*` fields take the new reading, otherwise they are
unchanged (only `ts` is refreshed either way). -/
theorem deadband_telemetry (config : Config) (leitura : Leitura) (now : ℤ)
    (isAltoFluxo : Bool) (stats : IAStats) (s : SensorState) (last0 : Option LastReading) :
    ((processarLeituraSensor config leitura now isAltoFluxo stats s last0).telemetry.isSome =
        true ↔
      (DB_MIN_VAR_TEMP ≤ |leitura.temp - (last0.getD {}).db_temp| ∨
        (∃ h, (last0.getD {}).db_hum = some h ∧
          DB_MIN_VAR_HUM ≤ |leitura.humidity.getD 0 - h|) ∨
        DB_HEARTBEAT_MS < now - (last0.getD {}).db_ts)) ∧
    ((processarLeituraSensor config leitura now isAltoFluxo stats s last0).telemetry.isSome =
        true →
      (processarLeituraSensor config leitura now isAltoFluxo stats s last0).last =
        { last0.getD {} with
          ts := now
          db_temp := leitura.temp
          db_hum := leitura.humidity
          db_ts := now }) ∧
    ((processarLeituraSensor config leitura now isAltoFluxo stats s last0).telemetry.isSome =
        false →
      (processarLeituraSensor config leitura now isAltoFluxo stats s last0).last =
        { last0.getD {} with ts := now }) := by
  have ht := processarLeituraSensor_telemetry config leitura now isAltoFluxo stats s last0
  have hl := processarLeituraSensor_last config leitura now isAltoFluxo stats s last0
  by_cases hp : persistirLeitura leitura now (last0.getD {}) = true
  · rw [if_pos hp] at ht hl
    refine ⟨?_, fun _ => hl, ?_⟩
    · rw [ht]
      exact iff_of_true rfl ((persistirLeitura_iff leitura now (last0.getD {})).mp hp)
    · intro hfalse
      rw [ht] at hfalse
      simp at hfalse
  · rw [if_neg hp] at ht hl
    refine ⟨?_, ?_, fun _ => hl⟩
    · rw [ht]
      exact iff_of_false (by simp)
        (fun h => hp ((persistirLeitura_iff leitura now (last0.getD {})).mpr h))
    · intro htrue
      rw [ht] at htrue
      simp at htrue

/-- Witness for C7: a reading 700 s after the last persisted record is
persisted through the heartbeat disjunct. -/
theorem deadband_telemetry_witness :
    (processarLeituraSensor ⟨none, none, none, none, false⟩ ⟨-18, some 80⟩ 700000 false
        ⟨0, 0, 0, 0, 0, 0, none, none, none⟩ ⟨none, none, []⟩
        (some ⟨0, -18, some 50, 0⟩)).telemetry.isSome = true :=
  (deadband_telemetry ⟨none, none, none, none, false⟩ ⟨-18, some 80⟩ 700000 false
      ⟨0, 0, 0, 0, 0, 0, none, none, none⟩ ⟨none, none, []⟩
      (some ⟨0, -18, some 50, 0⟩)).1.mpr (Or.inr (Or.inr (by decide)))

section ConcreteEvaluation

/- The Batteries `Rat` arithmetic operations are `@[irreducible]`, which
blocks `decide`-style evaluation of the embedding on concrete inputs;
they are made semireducible locally for the concrete witnesses and
counterexamples below. -/
attribute [local semireducible] Rat.mul Rat.add Rat.sub Rat.inv Rat.ofScientific

set_option maxRecDepth 10000 in
set_option maxHeartbeats 2000000 in
/-- Witness for C4: the trace above ends with `is_defrosting` true and
the committed door state false. -/
theorem defrost_door_mutual_exclusion_witness :
    Ctrl.last_virtual_state
      ⟨false, true, some 90000, some (-18), some (-18), none, false, none, some 90000,
        none⟩ = false :=
  defrost_door_mutual_exclusion ⟨none, none, none, none, false⟩ traceC4
    ⟨false, true, some 90000, some (-18), some (-18), none, false, none, some 90000, none⟩
    (by decide) (by decide)


/-- The effective `last_alert_sent_ts` of a (possibly absent) control
entry, as read by the cooldown check (`ctrl.last_alert_sent_ts || 0`). -/
def lastSentOf (ctrlOpt : Option Ctrl) : ℤ :=
  jsOrZ ((ctrlOpt.getD {}).last_alert_sent_ts) 0

theorem verificarSensor_cooldown (config : Config) (leitura : Leitura) (now : ℤ)
    (isAltoFluxo : Bool) (ctrl0 : Option Ctrl) (watch0 : Option WatchEntry)
    (history0 : List Sample) (stats : IAStats) (hm : config.em_manutencao = false) :
    (∀ a, (verificarSensor config leitura now isAltoFluxo ctrl0 watch0 history0
        stats).alerta = some a →
      a.ts = now ∧
      cooldownEnvioMs a.prioridade < now - lastSentOf ctrl0 ∧
      lastSentOf (verificarSensor config leitura now isAltoFluxo ctrl0 watch0 history0
        stats).ctrl = now) ∧
    ((verificarSensor config leitura now isAltoFluxo ctrl0 watch0 history0 stats).alerta =
        none →
      lastSentOf (verificarSensor config leitura now isAltoFluxo ctrl0 watch0 history0
        stats).ctrl = lastSentOf ctrl0) := by
  have hport := vsPorta_lastSent config leitura now isAltoFluxo ctrl0 history0 stats
  constructor
  · intro a ha
    have ha' := ha
    rw [verificarSensor_alerta _ _ _ _ _ _ _ _ hm, vsWres_eq] at ha'
    obtain ⟨hmsg, hts, hctrl, hcool, entry, hwatch, hsoak⟩ :=
      processarWatchlist_emit _ _ _ _ _ _ _ _ ha'
    rw [hport] at hcool
    refine ⟨hts, hcool, ?_⟩
    rw [verificarSensor_ctrl _ _ _ _ _ _ _ _ hm]
    have hcondT : (ctrl0.isSome || vsReady now leitura history0 ||
        (vsWres config leitura now isAltoFluxo ctrl0 watch0 history0 stats).2.2.isSome) =
        true := by
      rw [verificarSensor_alerta _ _ _ _ _ _ _ _ hm] at ha
      simp [ha]
    rw [if_pos hcondT]
    show jsOrZ (vsWres config leitura now isAltoFluxo ctrl0 watch0 history0
      stats).1.last_alert_sent_ts 0 = now
    rw [vsWres_eq, hctrl]
    exact jsOrZ_some_zero now
  · intro ha
    rw [verificarSensor_ctrl _ _ _ _ _ _ _ _ hm]
    rw [verificarSensor_alerta _ _ _ _ _ _ _ _ hm] at ha
    have hwr1 : (vsWres config leitura now isAltoFluxo ctrl0 watch0 history0 stats).1 =
        (vsPorta config leitura now isAltoFluxo ctrl0 history0 stats).1 := by
      rw [vsWres_eq]
      exact processarWatchlist_noemit _ _ _ _ _ _ _ (by rw [← vsWres_eq]; exact ha)
    by_cases hcond : (ctrl0.isSome || vsReady now leitura history0 ||
        (vsWres config leitura now isAltoFluxo ctrl0 watch0 history0 stats).2.2.isSome) =
        true
    · rw [if_pos hcond]
      show jsOrZ (vsWres config leitura now isAltoFluxo ctrl0 watch0 history0
        stats).1.last_alert_sent_ts 0 = lastSentOf ctrl0
      rw [hwr1, hport]
      rfl
    · rw [if_neg hcond]
      simp only [Bool.or_eq_true, not_or] at hcond
      have h0 : ctrl0 = none := by
        cases hctrl0 : ctrl0
        · rfl
        · rw [hctrl0] at hcond
          simp at hcond
      rw [h0]

theorem stepFull_cooldown (config : Config) (st : FullState) (inp : StepInput)
    (hm : config.em_manutencao = false) :
    (∀ a, (stepFull config st inp).2 = some a →
      a.ts = inp.now ∧
      cooldownEnvioMs a.prioridade < inp.now - lastSentOf st.sensor.ctrl ∧
      lastSentOf (stepFull config st inp).1.sensor.ctrl = inp.now) ∧
    ((stepFull config st inp).2 = none →
      lastSentOf (stepFull config st inp).1.sensor.ctrl = lastSentOf st.sensor.ctrl) :=
  verificarSensor_cooldown config inp.leitura inp.now inp.isAltoFluxo
    st.sensor.ctrl st.sensor.watch st.sensor.history inp.stats hm

theorem runTraceAux_cooldown (config : Config) (hm : config.em_manutencao = false) :
    ∀ (inputs : List StepInput) (acc : FullState × List Alerta),
      acc.2.Chain' (fun a b => cooldownEnvioMs b.prioridade < b.ts - a.ts) →
      lastSentOf acc.1.sensor.ctrl = acc.2.getLast?.elim 0 Alerta.ts →
      (runTraceAux config inputs acc).2.Chain'
        (fun a b => cooldownEnvioMs b.prioridade < b.ts - a.ts) := by
  intro inputs
  induction inputs with
  | nil =>
    intro acc hch hls
    exact hch
  | cons inp rest ih =>
    intro acc hch hls
    rw [show runTraceAux config (inp :: rest) acc =
      runTraceAux config rest ((stepFull config acc.1 inp).1,
        acc.2 ++ (stepFull config acc.1 inp).2.toList) from rfl]
    have hstep := stepFull_cooldown config acc.1 inp hm
    cases hao : (stepFull config acc.1 inp).2 with
    | none =>
      apply ih
      · simpa using hch
      · simp only [Option.toList, List.append_nil]
        rw [hstep.2 hao]
        exact hls
    | some a =>
      obtain ⟨hts, hcool, hnew⟩ := hstep.1 a hao
      apply ih
      · simp only [Option.toList]
        rw [List.chain'_append]
        refine ⟨hch, List.chain'_singleton a, ?_⟩
        intro x hx y hy
        have hy' : y = a := by
          have := hy
          simp at this
          exact this.symm
        subst hy'
        have hgl : acc.2.getLast? = some x := hx
        rw [hgl] at hls
        simp only [Option.elim] at hls
        rw [hts, ← hls]
        exact hcool
      · simp only [Option.toList]
        rw [List.getLast?_concat, hnew]
        simp [hts]

/-- C3 (amended): along any trace of processed readings for a fixed
non-maintenance configuration, consecutive emitted alerts for the
sensor are separated by strictly more than the cooldown determined by
the priority of the *later* alert `A[i+1]` — 15 minutes for
`CRITICA`/`ALTA` and 60 minutes for `PREDITIVA` — because the source
compares `now − last_alert_sent_ts` against the cooldown of the alert
about to be emitted, not of the previously emitted one. -/
theorem alert_cooldown_chain (config : Config) (inputs : List StepInput)
    (hm : config.em_manutencao = false) :
    (runTrace config inputs).2.Chain'
      (fun a b => cooldownEnvioMs b.prioridade < b.ts - a.ts) := by
  apply runTraceAux_cooldown config hm inputs ({}, [])
  · exact List.chain'_nil
  · rfl

/-- A 13-reading trace: ten warm-up readings fill the window, reading
11 puts the sensor on the watchlist with a predictive problem, reading
12 emits a `PREDITIVA` alert at t = 4 000 000 ms, and reading 13 — whose
window has been pruned below 10 samples, with high humidity — emits an
`ALTA` humidity alert at t = 4 960 000 ms, only 16 minutes later. -/
def traceC3 : List StepInput :=
  [⟨3600000, ⟨-18, none⟩, false, ⟨0, 0, 0, 0, 0, 0.8, none, none, none⟩⟩,
   ⟨3610000, ⟨-18, none⟩, false, ⟨0, 0, 0, 0, 0, 0.8, none, none, none⟩⟩,
   ⟨3620000, ⟨-18, none⟩, false, ⟨0, 0, 0, 0, 0, 0.8, none, none, none⟩⟩,
   ⟨3630000, ⟨-18, none⟩, false, ⟨0, 0, 0, 0, 0, 0.8, none, none, none⟩⟩,
   ⟨3640000, ⟨-18, none⟩, false, ⟨0, 0, 0, 0, 0, 0.8, none, none, none⟩⟩,
   ⟨3650000, ⟨-18, none⟩, false, ⟨0, 0, 0, 0, 0, 0.8, none, none, none⟩⟩,
   ⟨3660000, ⟨-18, none⟩, false, ⟨0, 0, 0, 0, 0, 0.8, none, none, none⟩⟩,
   ⟨3670000, ⟨-18, none⟩, false, ⟨0, 0, 0, 0, 0, 0.8, none, none, none⟩⟩,
   ⟨3680000, ⟨-18, none⟩, false, ⟨0, 0, 0, 0, 0, 0.8, none, none, none⟩⟩,
   ⟨3690000, ⟨-18, none⟩, false, ⟨0, 0, 0, 0, 0, 0.8, none, none, none⟩⟩,
   ⟨3700000, ⟨-12, none⟩, false, ⟨0.8, 0, 0, 0.6, 0.1, 0.7, none, none, none⟩⟩,
   ⟨4000000, ⟨-12, none⟩, false, ⟨0.8, 0, 0, 0.6, 0.1, 0.7, none, none, none⟩⟩,
   ⟨4960000, ⟨-18, some 80⟩, false, ⟨0, 0, 0, 0, 0, 0.8, none, none, none⟩⟩]

set_option maxRecDepth 20000 in
set_option maxHeartbeats 4000000 in
/-- C3 counterexample, refuting the claim as frozen: on `traceC3` the
engine emits a `PREDITIVA` alert at t = 4 000 000 ms followed by an
`ALTA` alert at t = 4 960 000 ms for the same sensor.  The gap is
960 000 ms = 16 minutes, far below the 45–60 minute cooldown the claim
assigns to the earlier alert's `PREDITIVA` priority: the code applies
the cooldown of the alert being emitted, not of the previous one. -/
theorem alert_cooldown_claim_counterexample :
    (runTrace ⟨none, none, some 60, none, false⟩ traceC3).2.map
        (fun a => (a.prioridade, a.mensagem, a.ts)) =
      [(Prioridade.PREDITIVA, Problema.previsao, 4000000),
       (Prioridade.ALTA, Problema.umidAlta, 4960000)] ∧
    (4960000 - 4000000 : ℤ) < 45 * 60000 := by
  constructor
  · decide
  · decide

set_option maxRecDepth 20000 in
set_option maxHeartbeats 4000000 in
/-- Witness for C3 on the same trace: the amended chain property holds
for its two alerts. -/
theorem alert_cooldown_chain_witness :
    (runTrace ⟨none, none, some 60, none, false⟩ traceC3).2.Chain'
      (fun a b => cooldownEnvioMs b.prioridade < b.ts - a.ts) := by
  apply alert_cooldown_chain
  rfl



/-- Counterexample for C2 as stated: the watchlist is keyed by sensor
MAC only, so the entry that matures an alert need not record the
emitted problem kind — here an entry recorded for `tempAlta` matures a
`umidAlta` alert, and no watchlist entry for the pair
(sensor, `umidAlta`) exists at emission time. -/
theorem alert_soak_claim_counterexample :
    (verificarSensor ⟨none, none, some 60, none, false⟩ ⟨-18, some 80⟩ 10000000 false none
        (some ⟨9400000, Problema.tempAlta⟩) [] ⟨0, 0, 0, 0, 0, 0, none, none, none⟩).alerta =
      some ⟨Prioridade.ALTA, Problema.umidAlta, 10000000, none⟩ ∧
    Problema.tempAlta ≠ Problema.umidAlta := ⟨by decide, by decide⟩

set_option maxRecDepth 10000 in
/-- Counterexample for C6 as stated: with `em_manutencao = true` a
telemetry record is still persisted — the maintenance check lives in
`verificarSensor`, not in the message handler — refuting "persists no
telemetry". -/
theorem maintenance_frame_counterexample :
    (⟨none, none, none, none, true⟩ : Config).em_manutencao = true ∧
    (processarLeituraSensor ⟨none, none, none, none, true⟩ ⟨-18, none⟩ 1000 false
        ⟨0, 0, 0, 0, 0, 0, none, none, none⟩ ⟨none, none, []⟩ none).telemetry =
      some ⟨1000, -18, none⟩ := ⟨rfl, by decide⟩

/-- Witness for C6: a maintenance sensor with a live alert control and a
stale watchlist entry — both are cleared, no alert is produced. -/
theorem maintenance_frame_witness :
    (processarLeituraSensor ⟨none, none, none, none, true⟩ ⟨-18, none⟩ 1000 false
        ⟨0, 0, 0, 0, 0, 0, none, none, none⟩ ⟨some {}, some ⟨0, Problema.tempAlta⟩, []⟩
        none).alerta = none ∧
    (processarLeituraSensor ⟨none, none, none, none, true⟩ ⟨-18, none⟩ 1000 false
        ⟨0, 0, 0, 0, 0, 0, none, none, none⟩ ⟨some {}, some ⟨0, Problema.tempAlta⟩, []⟩
        none).state = ⟨none, none, []⟩ :=
  ⟨(maintenance_frame ⟨none, none, none, none, true⟩ ⟨-18, none⟩ 1000 false
      ⟨0, 0, 0, 0, 0, 0, none, none, none⟩ ⟨some {}, some ⟨0, Problema.tempAlta⟩, []⟩
      none rfl).1,
    (maintenance_frame ⟨none, none, none, none, true⟩ ⟨-18, none⟩ 1000 false
      ⟨0, 0, 0, 0, 0, 0, none, none, none⟩ ⟨some {}, some ⟨0, Problema.tempAlta⟩, []⟩
      none rfl).2.2.1⟩

set_option maxRecDepth 10000 in
/-- Counterexample for C7 as stated: at exactly 10 minutes since the
last persisted record, with sub-deadband temperature and humidity
variation, nothing is persisted — the heartbeat comparison in the code
is strict (`>`), not the claimed `>=`. -/
theorem deadband_telemetry_counterexample :
    (600000 : ℤ) - 0 = DB_HEARTBEAT_MS ∧
    |(-181 : ℚ)/10 - (-18)| < DB_MIN_VAR_TEMP ∧
    |(51 : ℚ) - 50| < DB_MIN_VAR_HUM ∧
    (processarLeituraSensor ⟨none, none, none, none, false⟩ ⟨-181/10, some 51⟩ 600000 false
        ⟨0, 0, 0, 0, 0, 0, none, none, none⟩ ⟨none, none, []⟩
        (some ⟨0, -18, some 50, 0⟩)).telemetry = none :=
  ⟨by decide, by decide, by decide, by decide⟩

end ConcreteEvaluation
